import Mathlib

/-!
Verification development for the DataUtilities repository.

Two components are embedded, following the Python source:

* `datautilities/data_models/sample_model_converters_class.py` — the
  `Converters` class translating between pydantic models
  (`SampleModel`, `AnswerModel`, `AttachmentModel` from
  `data_models/sampling_data_record.py`) and SQLAlchemy rows.
* `datautilities/purple_air_api/PurpleAPIWrapper.py` — the
  `PurpleAirClient` HTTP wrapper.

Modelling conventions:

* Python dictionaries become association lists `List (String × Value)`
  with Python insertion semantics (`dinsert` replaces the value in place
  when the key is present, otherwise appends).
* Python `None` is the distinguished value `Value.null`; an absent key is
  `Option.none` of the lookup.
* pydantic floats and datetimes are modelled as `Int` (the converter code
  only copies and compares them; no floating-point arithmetic occurs).
* SQLAlchemy row instances become `SARow`: the declared column names of
  the row class plus the column values that were set.  `getattr(row, c)`
  on a declared but unset column yields Python `None`, hence `Value.null`.
* Exceptions become `Except`: raising is returning `.error`.
-/

/-- A Python runtime value as it flows through the converters: strings,
integers (standing in for ints/floats), booleans, `HttpUrl` objects,
datetimes, dictionaries, lists, and `None`. -/
inductive Value where
  | str (s : String)
  | int (n : Int)
  | bool (b : Bool)
  | url (u : String)
  | dt (t : Int)
  | obj (m : List (String × Value))
  | list (xs : List Value)
  | null
deriving Repr

/-- A Python dict whose keys are strings: an ordered association list. -/
abbrev Dict := List (String × Value)

/-- First-match association-list lookup (`d.get(k)` / `d[k]`). -/
def alookup {α : Type} (d : List (String × α)) (k : String) : Option α :=
  match d with
  | [] => none
  | (k1, v) :: rest => if k1 = k then some v else alookup rest k

/-- Python `d[k] = v`: replace the value in place if the key is present,
otherwise append the binding at the end. -/
def dinsert {α : Type} (d : List (String × α)) (k : String) (v : α) :
    List (String × α) :=
  match d with
  | [] => [(k, v)]
  | (k1, v1) :: rest =>
      if k1 = k then (k, v) :: rest else (k1, v1) :: dinsert rest k v

/-- Left-biased choice on `Option`, used to state lookup-over-append. -/
def oor {α : Type} : Option α → Option α → Option α
  | some v, _ => some v
  | none, b => b

@[simp]
theorem alookup_nil {α : Type} (k : String) : alookup ([] : List (String × α)) k = none :=
  rfl

@[simp]
theorem alookup_cons {α : Type} (k1 k : String) (v : α) (rest : List (String × α)) :
    alookup ((k1, v) :: rest) k = if k1 = k then some v else alookup rest k :=
  rfl

theorem alookup_append {α : Type} (d1 d2 : List (String × α)) (k : String) :
    alookup (d1 ++ d2) k = oor (alookup d1 k) (alookup d2 k) := by
  induction d1 with
  | nil => simp [oor]
  | cons hd tl ih =>
      obtain ⟨k1, v1⟩ := hd
      by_cases h : k1 = k
      · simp [alookup, h, oor]
      · simp [alookup, h, ih]

theorem alookup_dinsert_self {α : Type} (d : List (String × α)) (k : String) (v : α) :
    alookup (dinsert d k v) k = some v := by
  induction d with
  | nil => simp [dinsert, alookup]
  | cons hd tl ih =>
      obtain ⟨k1, v1⟩ := hd
      by_cases h : k1 = k
      · simp [dinsert, h, alookup]
      · simp [dinsert, h, alookup, ih]

theorem alookup_dinsert_ne {α : Type} (d : List (String × α)) (k k1 : String) (v : α)
    (h : k ≠ k1) : alookup (dinsert d k v) k1 = alookup d k1 := by
  induction d with
  | nil => simp [dinsert, alookup, h]
  | cons hd tl ih =>
      obtain ⟨k2, v2⟩ := hd
      by_cases h2 : k2 = k
      · subst h2
        simp [dinsert, alookup, h]
      · simp [dinsert, h2, alookup, ih]

theorem alookup_filter_keys {α : Type} (d : List (String × α)) (p : String → Bool)
    (k : String) :
    alookup (d.filter (fun kv => p kv.1)) k =
      if p k then alookup d k else none := by
  induction d with
  | nil => simp
  | cons hd tl ih =>
      obtain ⟨k1, v1⟩ := hd
      by_cases hk : k1 = k
      · subst hk
        by_cases hp : p k1
        · simp [List.filter, hp, alookup]
        · simp [List.filter, hp, alookup, ih]
      · by_cases hp : p k1
        · simp [List.filter, hp, alookup, hk, ih]
        · simp [List.filter, hp, alookup, hk, ih]

theorem alookup_map_keys {α : Type} (cols : List String) (g : String → α) (k : String) :
    alookup (cols.map (fun c => (c, g c))) k =
      if k ∈ cols then some (g k) else none := by
  induction cols with
  | nil => simp
  | cons c rest ih =>
      by_cases h : c = k
      · subst h
        simp [alookup]
      · simp [alookup, h, ih, Ne.symm h]

/-!
## SQLAlchemy rows and the `Converters` class

A SQLAlchemy declarative instance is modelled by the declared column
names of its class (`__table__.columns`) together with the column values
that have been assigned.  Reading a declared but unassigned column
yields Python `None`.  The row classes themselves
(`sample_answer_tables.py`) are external to the repository, so the
column lists are parameters, exactly as `Converters` receives the
classes at construction.
-/

structure SARow where
  cols : List String
  vals : Dict
deriving Repr

/-- `getattr(row, name, None)` for a column attribute. -/
def getattrV (r : SARow) (name : String) : Value :=
  (alookup r.vals name).getD Value.null

/-- The `Converters` instance: the three table classes are represented by
their declared column-name lists, plus the optional `field_map`. -/
structure Converters where
  sampleCols : List String
  answerCols : List String
  attachmentCols : List String
  field_map : List (String × String)

/-- `Converters._apply_field_map`: remap keys of `data` according to
`field_map` (source name to target name; unmapped keys pass through),
building a fresh dict in iteration order. -/
def apply_field_map (fm : List (String × String)) (data : Dict) : Dict :=
  if fm.isEmpty then data
  else data.foldl (fun remapped kv =>
    dinsert remapped ((alookup fm kv.1).getD kv.1) kv.2) []

/-- `Converters._dict_to_sa`: remap keys, drop those that are not
declared columns, and build the row instance. -/
def dict_to_sa (cols : List String) (fm : List (String × String)) (values : Dict) :
    SARow :=
  let mapped := apply_field_map fm values
  let filtered := mapped.filter (fun kv => decide (kv.1 ∈ cols))
  { cols := cols, vals := filtered }

/-!
## The pydantic models (`data_models/sampling_data_record.py`)

`AnswerModel`, `AttachmentModel` and `SampleModel` (the latter extending
`BaseRecord`, which contributes the required `source` and `timestamp`
fields).  Optional fields default to `none`; pydantic defaults that are
not `None` (`question_text = ""`, `answer_order = 0`, `kind =
"samplerecord"`, `sample_date`, `attributes = {}`) are reproduced.
`SampleModel` has `Config.extra = "allow"`, modelled by the `extra`
field holding unrecognised keys.
-/

structure AnswerModel where
  key : String
  question_text : String := ""
  value_text : Option String := none
  value_numeric : Option Int := none
  value_boolean : Option Bool := none
  value_json : Option Dict := none
  answer_order : Option Int := some 0
  qc_comment_field : Option String := none
  qc_flag : Option Int := none
  note : Option String := none
deriving Repr

structure AttachmentModel where
  filename : String
  mime_type : Option String := none
  storage_type : Option String := none
  storage_path : Option String := none
  storage_bucket : Option String := none
  storage_object_key : Option String := none
  storage_url : Option String := none
  storage_meta : Option Dict := none
  caption : Option String := none
  file_size_bytes : Option Int := none
  uploaded_by : Option String := none
deriving Repr

/-- `datetime.strptime("1900-01-01", "%Y-%m-%d")`, as an epoch integer. -/
def defaultSampleDate : Int := -2208988800

structure SampleModel where
  source : String
  timestamp : Int
  kind : String := "samplerecord"
  external_id : Option String := none
  plugin_id : Option String := none
  plugin_version : Option String := none
  name : Option String := none
  description : Option String := none
  sample_date : Int := defaultSampleDate
  latitude : Option Int := none
  longitude : Option Int := none
  street_address : Option String := none
  city : Option String := none
  postal_code : Option String := none
  country_code : Option String := none
  organization_id : Option Int := none
  collector_id : Option String := none
  collector_name : Option String := none
  answers : List AnswerModel := []
  attachments : List AttachmentModel := []
  attributes : Option Dict := some []
  raw_payload : Option Dict := none
  extra : Dict := []
deriving Repr

/-!
## `.dict(exclude_none=True)`

pydantic v1 iterates the declared fields in declaration order and skips
exactly the fields whose current value is `None`; extra attributes
(allowed on `SampleModel`) are appended, also skipping `None` values.
-/

/-- One optional entry of a dump: present exactly when the field value is
not `None`. -/
def optF (k : String) (o : Option Value) : Dict :=
  match o with
  | none => []
  | some v => [(k, v)]

def answerDict (a : AnswerModel) : Dict :=
  [("key", Value.str a.key), ("question_text", Value.str a.question_text)]
  ++ optF "value_text" (a.value_text.map Value.str)
  ++ optF "value_numeric" (a.value_numeric.map Value.int)
  ++ optF "value_boolean" (a.value_boolean.map Value.bool)
  ++ optF "value_json" (a.value_json.map Value.obj)
  ++ optF "answer_order" (a.answer_order.map Value.int)
  ++ optF "qc_comment_field" (a.qc_comment_field.map Value.str)
  ++ optF "qc_flag" (a.qc_flag.map Value.int)
  ++ optF "note" (a.note.map Value.str)

def attachmentDict (t : AttachmentModel) : Dict :=
  [("filename", Value.str t.filename)]
  ++ optF "mime_type" (t.mime_type.map Value.str)
  ++ optF "storage_type" (t.storage_type.map Value.str)
  ++ optF "storage_path" (t.storage_path.map Value.str)
  ++ optF "storage_bucket" (t.storage_bucket.map Value.str)
  ++ optF "storage_object_key" (t.storage_object_key.map Value.str)
  ++ optF "storage_url" (t.storage_url.map Value.url)
  ++ optF "storage_meta" (t.storage_meta.map Value.obj)
  ++ optF "caption" (t.caption.map Value.str)
  ++ optF "file_size_bytes" (t.file_size_bytes.map Value.int)
  ++ optF "uploaded_by" (t.uploaded_by.map Value.str)

/-- Is a value Python `None`? -/
def isNullV : Value → Bool
  | Value.null => true
  | _ => false

/-- The scalar part of `SampleModel.dict(exclude_none=True)`: every
declared field except `answers` and `attachments`, which
`pydantic_to_sqlalchemy_sample` pops off before building the row (they
are handled through the model's own lists). -/
def sampleScalarDict (s : SampleModel) : Dict :=
  [("source", Value.str s.source), ("timestamp", Value.dt s.timestamp),
   ("kind", Value.str s.kind)]
  ++ optF "external_id" (s.external_id.map Value.str)
  ++ optF "plugin_id" (s.plugin_id.map Value.str)
  ++ optF "plugin_version" (s.plugin_version.map Value.str)
  ++ optF "name" (s.name.map Value.str)
  ++ optF "description" (s.description.map Value.str)
  ++ [("sample_date", Value.dt s.sample_date)]
  ++ optF "latitude" (s.latitude.map Value.int)
  ++ optF "longitude" (s.longitude.map Value.int)
  ++ optF "street_address" (s.street_address.map Value.str)
  ++ optF "city" (s.city.map Value.str)
  ++ optF "postal_code" (s.postal_code.map Value.str)
  ++ optF "country_code" (s.country_code.map Value.str)
  ++ optF "organization_id" (s.organization_id.map Value.int)
  ++ optF "collector_id" (s.collector_id.map Value.str)
  ++ optF "collector_name" (s.collector_name.map Value.str)
  ++ optF "attributes" (s.attributes.map Value.obj)
  ++ optF "raw_payload" (s.raw_payload.map Value.obj)
  ++ s.extra.filter (fun kv => !(isNullV kv.2))

/-!
## `parse_obj`: pydantic validation

`parse_obj` reads the declared fields from an input dict, applying the
declared defaults for absent keys and rejecting `None` where the field
is not `Optional`; `constr(strip_whitespace=True, max_length=n)` strips
and bounds the string.  Validation stops at the first failing field
(pydantic collects all errors; only success or failure is observable to
the converters, so short-circuiting is an equivalent embedding).
Unknown keys are ignored for `AnswerModel`/`AttachmentModel` and kept as
extra attributes for `SampleModel` (`Config.extra = "allow"`).
-/

/-- Required `str` field. -/
def reqStr : Option Value → Except String String
  | some (Value.str s) => Except.ok s
  | some Value.null => Except.error "none is not an allowed value"
  | some _ => Except.error "str type expected"
  | none => Except.error "field required"

/-- Required `datetime` field. -/
def reqDt : Option Value → Except String Int
  | some (Value.dt t) => Except.ok t
  | some Value.null => Except.error "none is not an allowed value"
  | some _ => Except.error "datetime type expected"
  | none => Except.error "field required"

/-- `datetime` field with a default. -/
def getDtDef (dflt : Int) : Option Value → Except String Int
  | none => Except.ok dflt
  | some (Value.dt t) => Except.ok t
  | some Value.null => Except.error "none is not an allowed value"
  | some _ => Except.error "datetime type expected"

/-- `kind: Literal["samplerecord"] = "samplerecord"`. -/
def getKind : Option Value → Except String String
  | none => Except.ok "samplerecord"
  | some (Value.str s) =>
      if s = "samplerecord" then Except.ok s
      else Except.error "unexpected value; permitted: samplerecord"
  | some _ => Except.error "unexpected value; permitted: samplerecord"

/-- `Optional[str]` field (default `None`). -/
def getOptStr : Option Value → Except String (Option String)
  | none => Except.ok none
  | some Value.null => Except.ok none
  | some (Value.str s) => Except.ok (some s)
  | some _ => Except.error "str type expected"

/-- `str` field with a non-`None` default. -/
def getStrDef (dflt : String) : Option Value → Except String String
  | none => Except.ok dflt
  | some (Value.str s) => Except.ok s
  | some Value.null => Except.error "none is not an allowed value"
  | some _ => Except.error "str type expected"

/-- `Optional[int]` / `Optional[float]` field (default `None`). -/
def getOptInt : Option Value → Except String (Option Int)
  | none => Except.ok none
  | some Value.null => Except.ok none
  | some (Value.int n) => Except.ok (some n)
  | some _ => Except.error "number type expected"

/-- `Optional[int] = 0`, as on `answer_order`. -/
def getOptIntDefZero : Option Value → Except String (Option Int)
  | none => Except.ok (some 0)
  | some Value.null => Except.ok none
  | some (Value.int n) => Except.ok (some n)
  | some _ => Except.error "number type expected"

/-- `Optional[bool]` field. -/
def getOptBool : Option Value → Except String (Option Bool)
  | none => Except.ok none
  | some Value.null => Except.ok none
  | some (Value.bool b) => Except.ok (some b)
  | some _ => Except.error "bool type expected"

/-- `Optional[Dict[str, Any]]` field with default `None`. -/
def getOptDict : Option Value → Except String (Option Dict)
  | none => Except.ok none
  | some Value.null => Except.ok none
  | some (Value.obj d) => Except.ok (some d)
  | some _ => Except.error "dict type expected"

/-- `Optional[Dict[str, Any]] = {}`, as on `attributes`. -/
def getOptDictDefEmpty : Option Value → Except String (Option Dict)
  | none => Except.ok (some [])
  | some Value.null => Except.ok none
  | some (Value.obj d) => Except.ok (some d)
  | some _ => Except.error "dict type expected"

/-- `Optional[HttpUrl]` field. -/
def getOptUrl : Option Value → Except String (Option String)
  | none => Except.ok none
  | some Value.null => Except.ok none
  | some (Value.url u) => Except.ok (some u)
  | some _ => Except.error "url type expected"

/-- `Optional[float]` with `ge`/`le` bounds (latitude, longitude). -/
def getOptRange (lo hi : Int) : Option Value → Except String (Option Int)
  | none => Except.ok none
  | some Value.null => Except.ok none
  | some (Value.int n) =>
      if lo ≤ n ∧ n ≤ hi then Except.ok (some n)
      else Except.error "value out of range"
  | some _ => Except.error "number type expected"

/-- `Optional[str]` with `min_length=2, max_length=2` (country_code). -/
def getCountry : Option Value → Except String (Option String)
  | none => Except.ok none
  | some Value.null => Except.ok none
  | some (Value.str s) =>
      if s.length = 2 then Except.ok (some s)
      else Except.error "country_code length must be 2"
  | some _ => Except.error "str type expected"

/-- Drop leading whitespace characters. -/
def dropWhileWS : List Char → List Char
  | [] => []
  | c :: cs => if c.isWhitespace then dropWhileWS cs else c :: cs

/-- Python `str.strip()`: drop leading and trailing whitespace. -/
def strTrim (s : String) : String :=
  String.mk (dropWhileWS (dropWhileWS s.data.reverse).reverse)

/-- Required `constr(strip_whitespace=True, max_length=n)` field. -/
def getConStr (maxLen : Nat) : Option Value → Except String String
  | some (Value.str s) =>
      let t := strTrim s
      if t.length ≤ maxLen then Except.ok t
      else Except.error "ensure this value has at most the allowed length"
  | some Value.null => Except.error "none is not an allowed value"
  | some _ => Except.error "str type expected"
  | none => Except.error "field required"

def parseAnswer (d : Dict) : Except String AnswerModel := do
  let key ← getConStr 150 (alookup d "key")
  let question_text ← getStrDef "" (alookup d "question_text")
  let value_text ← getOptStr (alookup d "value_text")
  let value_numeric ← getOptInt (alookup d "value_numeric")
  let value_boolean ← getOptBool (alookup d "value_boolean")
  let value_json ← getOptDict (alookup d "value_json")
  let answer_order ← getOptIntDefZero (alookup d "answer_order")
  let qc_comment_field ← getOptStr (alookup d "qc_comment_field")
  let qc_flag ← getOptInt (alookup d "qc_flag")
  let note ← getOptStr (alookup d "note")
  pure { key := key, question_text := question_text, value_text := value_text,
         value_numeric := value_numeric, value_boolean := value_boolean,
         value_json := value_json, answer_order := answer_order,
         qc_comment_field := qc_comment_field, qc_flag := qc_flag, note := note }

def parseAttachment (d : Dict) : Except String AttachmentModel := do
  let filename ← getConStr 255 (alookup d "filename")
  let mime_type ← getOptStr (alookup d "mime_type")
  let storage_type ← getOptStr (alookup d "storage_type")
  let storage_path ← getOptStr (alookup d "storage_path")
  let storage_bucket ← getOptStr (alookup d "storage_bucket")
  let storage_object_key ← getOptStr (alookup d "storage_object_key")
  let storage_url ← getOptUrl (alookup d "storage_url")
  let storage_meta ← getOptDict (alookup d "storage_meta")
  let caption ← getOptStr (alookup d "caption")
  let file_size_bytes ← getOptInt (alookup d "file_size_bytes")
  let uploaded_by ← getOptStr (alookup d "uploaded_by")
  pure { filename := filename, mime_type := mime_type, storage_type := storage_type,
         storage_path := storage_path, storage_bucket := storage_bucket,
         storage_object_key := storage_object_key, storage_url := storage_url,
         storage_meta := storage_meta, caption := caption,
         file_size_bytes := file_size_bytes, uploaded_by := uploaded_by }

/-- Fail-fast effectful map, as a Python list comprehension or loop that
may raise at each element. -/
def exceptMap {α β : Type} (f : α → Except String β) : List α → Except String (List β)
  | [] => Except.ok []
  | a :: rest => do
      let b ← f a
      let bs ← exceptMap f rest
      pure (b :: bs)

/-- `answers: List[AnswerModel] = []`. -/
def getAnswersField : Option Value → Except String (List AnswerModel)
  | none => Except.ok []
  | some (Value.list xs) =>
      exceptMap (fun v =>
        match v with
        | Value.obj d => parseAnswer d
        | _ => Except.error "dict type expected") xs
  | some Value.null => Except.error "none is not an allowed value"
  | some _ => Except.error "list type expected"

/-- `attachments: List[AttachmentModel] = []`. -/
def getAttachmentsField : Option Value → Except String (List AttachmentModel)
  | none => Except.ok []
  | some (Value.list xs) =>
      exceptMap (fun v =>
        match v with
        | Value.obj d => parseAttachment d
        | _ => Except.error "dict type expected") xs
  | some Value.null => Except.error "none is not an allowed value"
  | some _ => Except.error "list type expected"

def declaredSampleFields : List String :=
  ["source", "timestamp", "kind", "external_id", "plugin_id", "plugin_version",
   "name", "description", "sample_date", "latitude", "longitude",
   "street_address", "city", "postal_code", "country_code", "organization_id",
   "collector_id", "collector_name", "answers", "attachments", "attributes",
   "raw_payload"]

def parseSample (d : Dict) : Except String SampleModel := do
  let source ← reqStr (alookup d "source")
  let timestamp ← reqDt (alookup d "timestamp")
  let kind ← getKind (alookup d "kind")
  let external_id ← getOptStr (alookup d "external_id")
  let plugin_id ← getOptStr (alookup d "plugin_id")
  let plugin_version ← getOptStr (alookup d "plugin_version")
  let name ← getOptStr (alookup d "name")
  let description ← getOptStr (alookup d "description")
  let sample_date ← getDtDef defaultSampleDate (alookup d "sample_date")
  let latitude ← getOptRange (-90) 90 (alookup d "latitude")
  let longitude ← getOptRange (-180) 180 (alookup d "longitude")
  let street_address ← getOptStr (alookup d "street_address")
  let city ← getOptStr (alookup d "city")
  let postal_code ← getOptStr (alookup d "postal_code")
  let country_code ← getCountry (alookup d "country_code")
  let organization_id ← getOptInt (alookup d "organization_id")
  let collector_id ← getOptStr (alookup d "collector_id")
  let collector_name ← getOptStr (alookup d "collector_name")
  let answers ← getAnswersField (alookup d "answers")
  let attachments ← getAttachmentsField (alookup d "attachments")
  let attributes ← getOptDictDefEmpty (alookup d "attributes")
  let raw_payload ← getOptDict (alookup d "raw_payload")
  let extra := d.filter (fun kv => !(declaredSampleFields.contains kv.1))
  pure { source := source, timestamp := timestamp, kind := kind,
         external_id := external_id, plugin_id := plugin_id,
         plugin_version := plugin_version, name := name,
         description := description, sample_date := sample_date,
         latitude := latitude, longitude := longitude,
         street_address := street_address, city := city,
         postal_code := postal_code, country_code := country_code,
         organization_id := organization_id, collector_id := collector_id,
         collector_name := collector_name, answers := answers,
         attachments := attachments, attributes := attributes,
         raw_payload := raw_payload, extra := extra }

/-!
## Validity: the invariants pydantic guarantees for constructed models

A model that was built by pydantic validation satisfies these; the
claims about converting "validated" records assume them.
-/

def validAnswerB (a : AnswerModel) : Bool :=
  strTrim a.key = a.key && a.key.length ≤ 150

def validAttachmentB (t : AttachmentModel) : Bool :=
  strTrim t.filename = t.filename && t.filename.length ≤ 255

/-- An optional numeric field within its `ge`/`le` bounds. -/
def optInRangeB (lo hi : Int) : Option Int → Bool
  | some n => decide (lo ≤ n ∧ n ≤ hi)
  | none => true

/-- An optional string field of length exactly 2 (country_code). -/
def optLen2B : Option String → Bool
  | some cc => decide (cc.length = 2)
  | none => true

def validSampleB (s : SampleModel) : Bool :=
  s.kind = "samplerecord"
  && optInRangeB (-90) 90 s.latitude
  && optInRangeB (-180) 180 s.longitude
  && optLen2B s.country_code
  && s.answers.all validAnswerB
  && s.attachments.all validAttachmentB

/-!
## The converter operations (`sample_model_converters_class.py`)
-/

/-- Python `str(v)`.  In the converter it is only ever applied to the
`storage_url` value of an attachment dump, which is a `Value.url`
(pydantic v1 `HttpUrl`, whose `str()` is the URL text). -/
def pyStr : Value → String
  | Value.str s => s
  | Value.url u => u
  | Value.int n => toString n
  | Value.bool b => if b then "True" else "False"
  | Value.dt t => toString t
  | Value.obj _ => "<dict>"
  | Value.list _ => "<list>"
  | Value.null => "None"

/-- The duck-typed argument of the `*_model_to_row` converters: either a
pydantic model instance (`hasattr(x, "dict")`) or a raw object to be
passed through `parse_obj`. -/
inductive PydInput (α : Type) where
  | model (m : α)
  | raw (d : Dict)

/-- `Converters.answer_model_to_row`. -/
def answer_model_to_row (c : Converters) (answer : PydInput AnswerModel)
    (sample_row_id : Option Int) : Except String SARow := do
  let d ← match answer with
          | PydInput.model m => pure (answerDict m)
          | PydInput.raw dd => do
              let m ← parseAnswer dd
              pure (answerDict m)
  let d := match sample_row_id with
           | some sid => dinsert d "sample_id" (Value.int sid)
           | none => d
  pure (dict_to_sa c.answerCols c.field_map d)

/-- `Converters.attachment_model_to_row`: same shape, plus the
`storage_url` stringification step. -/
def attachment_model_to_row (c : Converters) (att : PydInput AttachmentModel)
    (sample_row_id : Option Int) : Except String SARow := do
  let d ← match att with
          | PydInput.model m => pure (attachmentDict m)
          | PydInput.raw dd => do
              let m ← parseAttachment dd
              pure (attachmentDict m)
  let d := match sample_row_id with
           | some sid => dinsert d "sample_id" (Value.int sid)
           | none => d
  let d := match alookup d "storage_url" with
           | some v => if isNullV v then d
                       else dinsert d "storage_url" (Value.str (pyStr v))
           | none => d
  pure (dict_to_sa c.attachmentCols c.field_map d)

/-- `Converters.pydantic_to_sqlalchemy_sample`.  The nested `answers` and
`attachments` of `p.dict(exclude_none=True)` come out as plain dicts, so
each passes through `parse_obj` (the `.raw` branch) before its own dump,
exactly as in the source list comprehensions. -/
def pydantic_to_sqlalchemy_sample (c : Converters) (p : PydInput SampleModel) :
    Except String (SARow × List SARow × List SARow) := do
  let m ← match p with
          | PydInput.model s => pure s
          | PydInput.raw d => parseSample d
  let sample_row := dict_to_sa c.sampleCols c.field_map (sampleScalarDict m)
  let answer_rows ← exceptMap
    (fun a => answer_model_to_row c (PydInput.raw (answerDict a)) none) m.answers
  let attachment_rows ← exceptMap
    (fun t => attachment_model_to_row c (PydInput.raw (attachmentDict t)) none)
    m.attachments
  pure (sample_row, answer_rows, attachment_rows)

/-- Does the sample row fail the precondition of
`attach_rows_to_sample`?  `not hasattr(sample_row, "row_id") or
sample_row.row_id is None` — an SQLAlchemy instance has an attribute for
every declared column, unset columns reading as `None`. -/
def rowIdMissing (sample_row : SARow) : Bool :=
  !(sample_row.cols.contains "row_id")
  || (match alookup sample_row.vals "row_id" with
      | none => true
      | some v => isNullV v)

/-- `Converters.attach_rows_to_sample`: the in-place mutation of the
child rows is modelled by returning the updated lists.  A child row is
only written when it has a `sample_id` attribute (declared column). -/
def attach_rows_to_sample (sample_row : SARow)
    (answer_rows attachment_rows : List SARow) :
    Except String (List SARow × List SARow) :=
  if rowIdMissing sample_row then
    Except.error "sample_row must have row_id set before attaching children."
  else
    let sid := getattrV sample_row "row_id"
    Except.ok
      (answer_rows.map (fun a =>
         if a.cols.contains "sample_id" then
           { a with vals := dinsert a.vals "sample_id" sid } else a),
       attachment_rows.map (fun t =>
         if t.cols.contains "sample_id" then
           { t with vals := dinsert t.vals "sample_id" sid } else t))

/-- `Converters.sqlalchemy_sample_to_pydantic`: read every declared
column of the row (unset columns as `None`) into a dict and re-validate
it.  The rows built by this converter carry no ORM relationship
attributes, so `getattr(sample_row, "answers", None)` and the
attachments analogue are `None` and contribute nothing. -/
def sqlalchemy_sample_to_pydantic (_c : Converters) (sample_row : SARow) :
    Except String SampleModel :=
  parseSample (sample_row.cols.map (fun col => (col, getattrV sample_row col)))

/-- `Converters.pydantic_list_to_sqlalchemy`: the loop appends each
conversion to a local list that is only returned after the loop; a raise
mid-way discards it. -/
def pydantic_list_to_sqlalchemy (c : Converters) :
    List (PydInput SampleModel) → Except String (List (SARow × List SARow × List SARow))
  | [] => Except.ok []
  | s :: rest => do
      let t ← pydantic_to_sqlalchemy_sample c s
      let ts ← pydantic_list_to_sqlalchemy c rest
      pure (t :: ts)

/-!
## The API client (`purple_air_api/PurpleAPIWrapper.py`)

Each public method builds a path, query parameters and an optional JSON
body, and calls `_request` exactly once (there is no loop and no retry).
The transport (`requests.request`) is external: a call is modelled as a
pure function of the `HttpResponse` the transport would return, and the
list of issued requests is returned alongside the result so that
"exactly one request per call" is an observable fact.
-/

/-- A query-string or JSON-body parameter value. -/
inductive ParamV where
  | s (v : String)
  | i (v : Int)
deriving Repr

structure HttpRequest where
  method : String
  url : String
  params : List (String × ParamV)
  body : Option (List (String × ParamV))
  stream : Bool
deriving Repr

/-- The transport response: status code, `Content-Type` header, the
result of attempting `resp.json()` (`none` when the body is not valid
JSON), `resp.text`, and the lines `resp.iter_lines` would yield. -/
structure HttpResponse where
  status : Nat
  contentType : String
  jsonBody : Option Value
  text : String
  lines : List String

/-- `PurpleAirAPIError`, split by the three raise sites: the non-2xx
error (message "Error {status} {method} {url}: {err}"), the decode
failure ("Non-JSON response {method} {url}: {e}"), and the plain
`ValueError` raises. -/
inductive ErrBody where
  | json (v : Value)
  | text (s : String)
deriving Repr

inductive PAError where
  | httpError (status : Nat) (method url : String) (body : ErrBody)
  | nonJson (method url : String)
  | valueError (msg : String)
deriving Repr

inductive ReqResult where
  | json (v : Value)
  | text (s : String)
  | stream (lines : List String)
deriving Repr

def BASE_URL : String := "https://api.purpleair.com/v1"

/-- The error body of the non-2xx branch: `resp.json()` when it decodes,
otherwise `resp.text`. -/
def errBody (resp : HttpResponse) : ErrBody :=
  match resp.jsonBody with
  | some j => ErrBody.json j
  | none => ErrBody.text resp.text

/-- Python `str.lower()` (ASCII suffices for media types). -/
def strLower (s : String) : String :=
  String.mk (s.data.map Char.toLower)

/-- The response-handling half of `PurpleAirClient._request`, after the
single `requests.request` call. -/
def handleResponse (method url : String) (stream : Bool) (resp : HttpResponse) :
    Except PAError ReqResult :=
  if resp.status < 200 || resp.status ≥ 300 then
    Except.error (PAError.httpError resp.status method url (errBody resp))
  else
    if strLower resp.contentType = "application/json" then
      match resp.jsonBody with
      | some v => Except.ok (ReqResult.json v)
      | none => Except.error (PAError.nonJson method url)
    else if stream then Except.ok (ReqResult.stream resp.lines)
    else Except.ok (ReqResult.text resp.text)

/-- `",".join(fields)`. -/
def commaJoin (xs : List String) : String :=
  String.intercalate "," xs

/-- `",".join(str(i) for i in xs)`. -/
def intJoin (xs : List Int) : String :=
  String.intercalate "," (xs.map toString)

/-- Python truthiness of an optional list (`if fields:`): true exactly for
a present, non-empty list. -/
def truthyList {α : Type} : Option (List α) → Bool
  | some (_ :: _) => true
  | _ => false

inductive RFormat where
  | json
  | csv
deriving Repr

/-- The public operations of `PurpleAirClient`. -/
inductive Operation where
  | get_organization
  | get_sensor (sensor_index : Int) (fields : Option (List String))
  | get_sensors (sensor_indices : List Int) (fields : Option (List String))
      (show_only : Option (List Int))
  | get_sensor_history (sensor_index : Int) (start_timestamp end_timestamp : Int)
      (average : Option Int) (fields : Option (List String))
      (return_format : RFormat) (stream : Bool)
  | create_group (nm : String)
  | get_groups
  | get_group_detail (group_id : Int)
  | update_group (group_id : Int) (nm : Option String)
  | delete_group (group_id : Int)
  | add_member_to_group (group_id : Int) (sensor_index : Int)
  | remove_member_from_group (group_id : Int) (member_id : Int)
  | get_members_data (group_id : Int) (fields : Option (List String))
      (modified_since : Option Int)
  | get_member_data (group_id : Int) (member_id : Int) (fields : Option (List String))

/-- The request each operation builds and hands to `_request`; `none`
when the method raises before reaching `_request` (only
`update_group` with an empty body does, with
`ValueError("No fields to update for group.")`). -/
def buildRequest : Operation → Option HttpRequest
  | Operation.get_organization =>
      some { method := "GET", url := BASE_URL ++ "/organization", params := [],
             body := none, stream := false }
  | Operation.get_sensor sensor_index fields =>
      some { method := "GET", url := BASE_URL ++ "/sensors/" ++ toString sensor_index,
             params := if truthyList fields then
                 [("fields", ParamV.s (commaJoin (fields.getD [])))] else [],
             body := none, stream := false }
  | Operation.get_sensors sensor_indices fields show_only =>
      some { method := "GET", url := BASE_URL ++ "/sensors",
             params :=
               (if sensor_indices.isEmpty then []
                else [("sensor_index", ParamV.s (intJoin sensor_indices))])
               ++ (if truthyList show_only then
                     [("show_only", ParamV.s (intJoin (show_only.getD [])))] else [])
               ++ (if truthyList fields then
                     [("fields", ParamV.s (commaJoin (fields.getD [])))] else []),
             body := none, stream := false }
  | Operation.get_sensor_history sensor_index start_timestamp end_timestamp
      average fields return_format stream =>
      some { method := "GET",
             url := BASE_URL ++ "/sensors/" ++ toString sensor_index ++ "/history"
                    ++ (match return_format with
                        | RFormat.csv => "/csv"
                        | RFormat.json => ""),
             params :=
               [("start_timestamp", ParamV.i start_timestamp),
                ("end_timestamp", ParamV.i end_timestamp)]
               ++ (match average with
                   | some a => [("average", ParamV.i a)]
                   | none => [])
               ++ (if truthyList fields then
                     [("fields", ParamV.s (commaJoin (fields.getD [])))] else []),
             body := none, stream := stream }
  | Operation.create_group nm =>
      some { method := "POST", url := BASE_URL ++ "/groups", params := [],
             body := some [("name", ParamV.s nm)], stream := false }
  | Operation.get_groups =>
      some { method := "GET", url := BASE_URL ++ "/groups", params := [],
             body := none, stream := false }
  | Operation.get_group_detail group_id =>
      some { method := "GET", url := BASE_URL ++ "/groups/" ++ toString group_id,
             params := [], body := none, stream := false }
  | Operation.update_group group_id nm =>
      match nm with
      | some n =>
          some { method := "PUT", url := BASE_URL ++ "/groups/" ++ toString group_id,
                 params := [], body := some [("name", ParamV.s n)], stream := false }
      | none => none
  | Operation.delete_group group_id =>
      some { method := "DELETE", url := BASE_URL ++ "/groups/" ++ toString group_id,
             params := [], body := none, stream := false }
  | Operation.add_member_to_group group_id sensor_index =>
      some { method := "POST",
             url := BASE_URL ++ "/groups/" ++ toString group_id ++ "/members",
             params := [], body := some [("sensor_index", ParamV.i sensor_index)],
             stream := false }
  | Operation.remove_member_from_group group_id member_id =>
      some { method := "DELETE",
             url := BASE_URL ++ "/groups/" ++ toString group_id ++ "/members/"
                    ++ toString member_id,
             params := [], body := none, stream := false }
  | Operation.get_members_data group_id fields modified_since =>
      some { method := "GET",
             url := BASE_URL ++ "/groups/" ++ toString group_id ++ "/members/data",
             params :=
               (if truthyList fields then
                  [("fields", ParamV.s (commaJoin (fields.getD [])))] else [])
               ++ (match modified_since with
                   | some m => [("modified_since", ParamV.i m)]
                   | none => []),
             body := none, stream := false }
  | Operation.get_member_data group_id member_id fields =>
      some { method := "GET",
             url := BASE_URL ++ "/groups/" ++ toString group_id ++ "/members/"
                    ++ toString member_id ++ "/data",
             params := if truthyList fields then
                 [("fields", ParamV.s (commaJoin (fields.getD [])))] else [],
             body := none, stream := false }

/-- Does the operation reach `_request` (issue an HTTP request)? -/
def opIssuesRequest (op : Operation) : Bool :=
  (buildRequest op).isSome

/-- Run one client call against the response the transport would give:
returns the list of issued requests and the outcome. -/
def runOperation (op : Operation) (resp : HttpResponse) :
    List HttpRequest × Except PAError ReqResult :=
  match buildRequest op with
  | some r => ([r], handleResponse r.method r.url r.stream resp)
  | none => ([], Except.error (PAError.valueError "No fields to update for group."))

/-!
## The streamed-response line iterator (`_request._line_iterator`)

The generator yields the decoded lines inside a `try` whose `finally`
closes the response.  Its observable behaviour is the event trace it
produces for a given way of being consumed, following Python generator
semantics:

* exhaustion runs the loop to the end and then the `finally`;
* an exception at any point during iteration (including before the first
  line) propagates through the generator body, running the `finally`;
* abandonment after at least one line suspends at a `yield` inside the
  `try`; the eventual `close()` raises `GeneratorExit` there and the
  `finally` runs;
* abandonment before the first `next()` leaves the generator in its
  created state, and `close()` on a generator that never started marks
  it finished without executing the body — the `try` was never entered,
  so the `finally` (and `resp.close()`) never runs.
-/

inductive StreamEvent where
  | yieldLine (s : String)
  | closeCall
deriving Repr

/-- How the consumer of the line iterator ends up treating it. -/
inductive Consumption where
  | exhaust
  | abandonAfter (n : Nat)
  | errorAfter (n : Nat)
deriving Repr

/-- The event trace of `_line_iterator` under a given consumption. -/
def lineIteratorTrace (lines : List String) : Consumption → List StreamEvent
  | Consumption.exhaust =>
      lines.map StreamEvent.yieldLine ++ [StreamEvent.closeCall]
  | Consumption.abandonAfter 0 => []
  | Consumption.abandonAfter (n + 1) =>
      if n + 1 < lines.length then
        (lines.take (n + 1)).map StreamEvent.yieldLine ++ [StreamEvent.closeCall]
      else
        lines.map StreamEvent.yieldLine ++ [StreamEvent.closeCall]
  | Consumption.errorAfter n =>
      (lines.take n).map StreamEvent.yieldLine ++ [StreamEvent.closeCall]

/-- How many times `resp.close()` was invoked along a trace. -/
def closeCount (t : List StreamEvent) : Nat :=
  (t.filter (fun e =>
    match e with
    | StreamEvent.closeCall => true
    | _ => false)).length

/-- Did the consumer pull the iterator at least once? -/
def consumptionStarted : Consumption → Bool
  | Consumption.abandonAfter 0 => false
  | _ => true

/-!
## Helper lemmas
-/

@[simp]
theorem oor_some {α : Type} (v : α) (b : Option α) : oor (some v) b = some v := rfl

@[simp]
theorem oor_none {α : Type} (b : Option α) : oor none b = b := rfl

theorem alookup_optF (k k1 : String) (o : Option Value) :
    alookup (optF k o) k1 = if k = k1 then o else none := by
  cases o <;> by_cases h : k = k1 <;> simp [optF, alookup, h]

theorem isNullV_false_ne_null (v : Value) (h : isNullV v = false) :
    v ≠ Value.null := by
  cases v <;> simp_all [isNullV]

theorem closeCount_yields (xs : List String) :
    closeCount (xs.map StreamEvent.yieldLine ++ [StreamEvent.closeCall]) = 1 := by
  induction xs with
  | nil => rfl
  | cons x rest ih =>
      show closeCount (StreamEvent.yieldLine x ::
        (rest.map StreamEvent.yieldLine ++ [StreamEvent.closeCall])) = 1
      simp only [closeCount, List.filter] at ih ⊢
      exact ih

/-!
## Claim C5
-/

/-- C5 is false as stated: abandoning the returned line iterator before
consuming any line leaves the generator in its created state;
`close()` on a generator that never started does not run the `try`
body, so the `finally` — and with it `resp.close()` — never executes.
The connection is released zero times, not exactly once. -/
theorem c5_counterexample :
    closeCount (lineIteratorTrace ["line1", "line2"] (Consumption.abandonAfter 0)) = 0 :=
  rfl

/-- C5 (amended): for a 2xx non-JSON streamed response, the call returns
the lazy line iterator over the body, and the iterator closes the
connection exactly once whenever consumption actually begins — on
exhaustion, on an error at any point of the iteration, and on
abandonment after at least one line has been consumed.  (Abandonment
before the first line never enters the iterator body and closes
nothing.) -/
theorem c5_stream_close_once (method url : String) (resp : HttpResponse)
    (h2 : 200 ≤ resp.status) (h3 : resp.status < 300)
    (hct : strLower resp.contentType ≠ "application/json")
    (c : Consumption) (hc : consumptionStarted c = true) :
    handleResponse method url true resp = Except.ok (ReqResult.stream resp.lines) ∧
    closeCount (lineIteratorTrace resp.lines c) = 1 := by
  constructor
  · have h4 : ¬ resp.status < 200 := Nat.not_lt.mpr h2
    have h5 : ¬ resp.status ≥ 300 := Nat.not_le.mpr h3
    simp [handleResponse, h4, h5, hct]
  · cases c with
    | exhaust => exact closeCount_yields _
    | abandonAfter n =>
        cases n with
        | zero => simp [consumptionStarted] at hc
        | succ m =>
            rw [show lineIteratorTrace resp.lines (Consumption.abandonAfter (m + 1))
                = if m + 1 < resp.lines.length then
                    (resp.lines.take (m + 1)).map StreamEvent.yieldLine
                      ++ [StreamEvent.closeCall]
                  else
                    resp.lines.map StreamEvent.yieldLine ++ [StreamEvent.closeCall]
              from rfl]
            split
            · exact closeCount_yields _
            · exact closeCount_yields _
    | errorAfter n => exact closeCount_yields _

/-- Witness for `c5_stream_close_once` at a concrete response,
abandoning after the first line. -/
theorem c5_stream_close_once_witness :
    handleResponse "GET" "u" true
        { status := 200, contentType := "text/csv", jsonBody := none,
          text := "a", lines := ["a", "b"] }
      = Except.ok (ReqResult.stream ["a", "b"]) ∧
    closeCount (lineIteratorTrace ["a", "b"] (Consumption.abandonAfter 1)) = 1 :=
  c5_stream_close_once "GET" "u"
    { status := 200, contentType := "text/csv", jsonBody := none,
      text := "a", lines := ["a", "b"] }
    (by decide) (by decide) (by decide) (Consumption.abandonAfter 1) (by decide)

/-!
## Claim C2
-/

/-- C2: `attach_rows_to_sample` fails with the precondition error
exactly when the sample row does not carry a non-null `row_id`
(attribute absent or `None`); when it does, the call succeeds and every
answer row and every attachment row passed to it comes back with its
`sample_id` set to that identifier.  (Child rows are rows of the answer
and attachment tables, whose storage schema declares the `sample_id`
foreign-key column — the hypothesis `hch`.) -/
theorem c2_attach_requires_row_id (sr : SARow) (ans att : List SARow)
    (hch : ∀ r ∈ ans ++ att, r.cols.contains "sample_id" = true) :
    (rowIdMissing sr = true →
       attach_rows_to_sample sr ans att =
         Except.error "sample_row must have row_id set before attaching children.") ∧
    (rowIdMissing sr = false →
       getattrV sr "row_id" ≠ Value.null ∧
       ∃ ans2 att2,
         attach_rows_to_sample sr ans att = Except.ok (ans2, att2) ∧
         ans2.length = ans.length ∧ att2.length = att.length ∧
         ∀ r ∈ ans2 ++ att2,
           alookup r.vals "sample_id" = some (getattrV sr "row_id")) := by
  constructor
  · intro h
    simp [attach_rows_to_sample, h]
  · intro h
    have hnn : getattrV sr "row_id" ≠ Value.null := by
      unfold rowIdMissing at h
      rcases hbv : alookup sr.vals "row_id" with _ | v
      · simp [hbv] at h
      · simp [hbv] at h
        unfold getattrV
        rw [hbv]
        exact isNullV_false_ne_null v h.2
    have hattach : attach_rows_to_sample sr ans att = Except.ok
        (ans.map (fun a =>
           if a.cols.contains "sample_id" then
             { a with vals := dinsert a.vals "sample_id" (getattrV sr "row_id") }
           else a),
         att.map (fun t =>
           if t.cols.contains "sample_id" then
             { t with vals := dinsert t.vals "sample_id" (getattrV sr "row_id") }
           else t)) := by
      unfold attach_rows_to_sample
      rw [h]
      rfl
    refine ⟨hnn, _, _, hattach, by simp, by simp, ?_⟩
    intro r hr
    rcases List.mem_append.mp hr with hr | hr
    · obtain ⟨a, ha, rfl⟩ := List.mem_map.mp hr
      rw [if_pos (hch a (List.mem_append.mpr (Or.inl ha)))]
      exact alookup_dinsert_self _ _ _
    · obtain ⟨a, ha, rfl⟩ := List.mem_map.mp hr
      rw [if_pos (hch a (List.mem_append.mpr (Or.inr ha)))]
      exact alookup_dinsert_self _ _ _

/-- Witness for `c2_attach_requires_row_id` at a concrete sample row
with `row_id = 7` and one answer and one attachment row. -/
theorem c2_attach_requires_row_id_witness :
    rowIdMissing { cols := ["row_id"], vals := [("row_id", Value.int 7)] } = false ∧
    (getattrV { cols := ["row_id"], vals := [("row_id", Value.int 7)] } "row_id"
       ≠ Value.null ∧
     ∃ ans2 att2,
       attach_rows_to_sample { cols := ["row_id"], vals := [("row_id", Value.int 7)] }
           [{ cols := ["key", "sample_id"], vals := [("key", Value.str "k")] }]
           [{ cols := ["filename", "sample_id"], vals := [("filename", Value.str "f")] }]
         = Except.ok (ans2, att2) ∧
       ans2.length = 1 ∧ att2.length = 1 ∧
       ∀ r ∈ ans2 ++ att2,
         alookup r.vals "sample_id"
           = some (getattrV { cols := ["row_id"], vals := [("row_id", Value.int 7)] }
               "row_id")) :=
  ⟨rfl,
   (c2_attach_requires_row_id
      { cols := ["row_id"], vals := [("row_id", Value.int 7)] }
      [{ cols := ["key", "sample_id"], vals := [("key", Value.str "k")] }]
      [{ cols := ["filename", "sample_id"], vals := [("filename", Value.str "f")] }]
      (by decide)).2 rfl⟩

/-!
## Claims C4, C7, C10
-/

/-- C4: any operation that reaches the HTTP layer issues exactly one
request, and a response status outside [200, 300) makes the call raise
`PurpleAirAPIError` carrying the status, method, URL and the error body
(the JSON decode of the body when it succeeds, the raw text otherwise).
(`update_group` with no fields raises a `ValueError` before any request
and never sees a response, hence the `hop` hypothesis.) -/
theorem c4_non2xx_raises (op : Operation) (resp : HttpResponse)
    (hop : opIssuesRequest op = true)
    (hst : resp.status < 200 ∨ 300 ≤ resp.status) :
    ∃ r, buildRequest op = some r ∧
      (runOperation op resp).1 = [r] ∧
      (runOperation op resp).2 =
        Except.error (PAError.httpError resp.status r.method r.url (errBody resp)) := by
  have hcond : (decide (resp.status < 200) || decide (resp.status ≥ 300)) = true := by
    rcases hst with hlt | hge
    · simp [hlt]
    · simp [Nat.le_of_lt, hge]
  rcases hbr : buildRequest op with _ | r
  · rw [opIssuesRequest, hbr] at hop
    simp at hop
  · exact ⟨r, rfl, by simp [runOperation, hbr],
      by simp [runOperation, hbr, handleResponse, hcond]⟩

/-- Witness for `c4_non2xx_raises`: `get_organization` against a 404
response whose body decodes as a JSON object. -/
theorem c4_non2xx_raises_witness :
    ∃ r, buildRequest Operation.get_organization = some r ∧
      (runOperation Operation.get_organization
         { status := 404, contentType := "application/json",
           jsonBody := some (Value.obj [("error", Value.str "not found")]),
           text := "x", lines := [] }).1 = [r] ∧
      (runOperation Operation.get_organization
         { status := 404, contentType := "application/json",
           jsonBody := some (Value.obj [("error", Value.str "not found")]),
           text := "x", lines := [] }).2 =
        Except.error (PAError.httpError 404 r.method r.url
          (errBody { status := 404, contentType := "application/json",
                     jsonBody := some (Value.obj [("error", Value.str "not found")]),
                     text := "x", lines := [] })) :=
  c4_non2xx_raises Operation.get_organization
    { status := 404, contentType := "application/json",
      jsonBody := some (Value.obj [("error", Value.str "not found")]),
      text := "x", lines := [] }
    (by decide) (Or.inr (by decide))

/-- C7: a 2xx response whose `Content-Type` is `application/json` but
whose body does not decode as JSON makes the call raise the
"Non-JSON response" variant of `PurpleAirAPIError` — never a silent
empty or raw result. -/
theorem c7_json_decode_failure (op : Operation) (resp : HttpResponse)
    (hop : opIssuesRequest op = true)
    (h2 : 200 ≤ resp.status) (h3 : resp.status < 300)
    (hct : strLower resp.contentType = "application/json")
    (hj : resp.jsonBody = none) :
    ∃ r, buildRequest op = some r ∧
      (runOperation op resp).1 = [r] ∧
      (runOperation op resp).2 = Except.error (PAError.nonJson r.method r.url) := by
  have h4 : ¬ resp.status < 200 := Nat.not_lt.mpr h2
  have h5 : ¬ resp.status ≥ 300 := Nat.not_le.mpr h3
  rcases hbr : buildRequest op with _ | r
  · rw [opIssuesRequest, hbr] at hop
    simp at hop
  · exact ⟨r, rfl, by simp [runOperation, hbr],
      by simp [runOperation, hbr, handleResponse, h4, h5, hct, hj]⟩

/-- Witness for `c7_json_decode_failure`: `get_sensor 17` against a 200
`application/json` response with an undecodable body. -/
theorem c7_json_decode_failure_witness :
    ∃ r, buildRequest (Operation.get_sensor 17 none) = some r ∧
      (runOperation (Operation.get_sensor 17 none)
         { status := 200, contentType := "Application/JSON", jsonBody := none,
           text := "not json", lines := [] }).1 = [r] ∧
      (runOperation (Operation.get_sensor 17 none)
         { status := 200, contentType := "Application/JSON", jsonBody := none,
           text := "not json", lines := [] }).2 =
        Except.error (PAError.nonJson r.method r.url) :=
  c7_json_decode_failure (Operation.get_sensor 17 none)
    { status := 200, contentType := "Application/JSON", jsonBody := none,
      text := "not json", lines := [] }
    (by decide) (by decide) (by decide) (by decide) rfl

/-- The query parameters an operation sends (empty when the operation
raises before issuing a request). -/
def opParams (op : Operation) : List (String × ParamV) :=
  match buildRequest op with
  | some r => r.params
  | none => []

/-- C10: a `None` or empty optional list parameter is omitted from the
query string entirely — no key is sent for it; in particular
`get_sensors` with an empty `sensor_indices` list sends no
`sensor_index` parameter. -/
theorem c10_falsy_list_params_omitted
    (si gid mid st en : Int) (av ms : Option Int)
    (f1 f2 f3 f4 f5 : Option (List String)) (so2 : Option (List Int))
    (idxs2 : List Int) (rf : RFormat) (strm : Bool)
    (hf1 : truthyList f1 = false) (hf2 : truthyList f2 = false)
    (hf3 : truthyList f3 = false) (hf4 : truthyList f4 = false)
    (hf5 : truthyList f5 = false) (hso : truthyList so2 = false) :
    alookup (opParams (Operation.get_sensor si f1)) "fields" = none ∧
    alookup (opParams (Operation.get_sensors [] f2 so2)) "sensor_index" = none ∧
    alookup (opParams (Operation.get_sensors idxs2 f2 so2)) "fields" = none ∧
    alookup (opParams (Operation.get_sensors idxs2 f2 so2)) "show_only" = none ∧
    alookup (opParams
      (Operation.get_sensor_history si st en av f3 rf strm)) "fields" = none ∧
    alookup (opParams (Operation.get_members_data gid f4 ms)) "fields" = none ∧
    alookup (opParams (Operation.get_member_data gid mid f5)) "fields" = none := by
  refine ⟨?_, ?_, ?_, ?_, ?_, ?_, ?_⟩
  · simp [opParams, buildRequest, hf1]
  · simp [opParams, buildRequest, hf2, hso]
  · by_cases hidx : idxs2.isEmpty
      <;> simp [opParams, buildRequest, hf2, hso, hidx, alookup]
  · by_cases hidx : idxs2.isEmpty
      <;> simp [opParams, buildRequest, hf2, hso, hidx, alookup]
  · cases av <;> simp [opParams, buildRequest, hf3, alookup_append, alookup, oor]
  · cases ms <;> simp [opParams, buildRequest, hf4, alookup_append, alookup, oor]
  · simp [opParams, buildRequest, hf5]

/-- Witness for `c10_falsy_list_params_omitted` with `None` fields,
empty `show_only`, and an empty `sensor_indices` list. -/
theorem c10_falsy_list_params_omitted_witness :
    alookup (opParams (Operation.get_sensor 1 none)) "fields" = none ∧
    alookup (opParams (Operation.get_sensors [] (some []) (some []))) "sensor_index"
      = none ∧
    alookup (opParams (Operation.get_sensors [5] (some []) (some []))) "fields"
      = none ∧
    alookup (opParams (Operation.get_sensors [5] (some []) (some []))) "show_only"
      = none ∧
    alookup (opParams
      (Operation.get_sensor_history 1 0 10 (some 0) none RFormat.csv true)) "fields"
      = none ∧
    alookup (opParams (Operation.get_members_data 2 (some []) (some 3))) "fields"
      = none ∧
    alookup (opParams (Operation.get_member_data 2 4 none)) "fields" = none :=
  c10_falsy_list_params_omitted 1 2 4 0 10 (some 0) (some 3)
    none (some []) none (some []) none (some []) [5] RFormat.csv true
    rfl rfl rfl rfl rfl rfl

/-!
## Claim C6
-/

/-- C6: `pydantic_list_to_sqlalchemy` returns the per-sample row triples
in input order, and is fail-fast and atomic: whenever the conversion of
any element raises, the entire call fails and no triples (in particular
none for the preceding valid elements) are returned. -/
theorem c6_batch_convert (c : Converters) (ss : List (PydInput SampleModel)) :
    (∀ out, pydantic_list_to_sqlalchemy c ss = Except.ok out →
       out.length = ss.length ∧
       ∀ (i : Nat) (hi : i < ss.length) (ho : i < out.length),
         pydantic_to_sqlalchemy_sample c (ss.get ⟨i, hi⟩)
           = Except.ok (out.get ⟨i, ho⟩)) ∧
    (∀ (i : Nat) (hi : i < ss.length) (e : String),
       pydantic_to_sqlalchemy_sample c (ss.get ⟨i, hi⟩) = Except.error e →
       ∃ e2, pydantic_list_to_sqlalchemy c ss = Except.error e2) := by
  induction ss with
  | nil =>
      constructor
      · intro out hout
        simp [pydantic_list_to_sqlalchemy] at hout
        subst hout
        exact ⟨rfl, fun i hi => absurd hi (by simp)⟩
      · intro i hi
        simp at hi
  | cons s rest ih =>
      constructor
      · intro out hout
        rcases hconv : pydantic_to_sqlalchemy_sample c s with e | t
        · simp [pydantic_list_to_sqlalchemy, hconv, Bind.bind, Except.bind] at hout
        · rcases hrest : pydantic_list_to_sqlalchemy c rest with e | ts
          · simp [pydantic_list_to_sqlalchemy, hconv, hrest,
              Bind.bind, Except.bind] at hout
          · simp only [pydantic_list_to_sqlalchemy, hconv, hrest,
              Bind.bind, Except.bind, pure, Except.pure, Except.ok.injEq] at hout
            subst hout
            obtain ⟨hlen, hpt⟩ := ih.1 ts hrest
            refine ⟨by simp [hlen], ?_⟩
            intro i hi ho
            cases i with
            | zero => simpa using hconv
            | succ j =>
                have hj : j < rest.length := by simpa using hi
                have hj2 : j < ts.length := by simpa using ho
                simpa using hpt j hj hj2
      · intro i hi e herr
        cases i with
        | zero =>
            refine ⟨e, ?_⟩
            simp only [List.get] at herr
            simp [pydantic_list_to_sqlalchemy, herr, Bind.bind, Except.bind]
        | succ j =>
            rcases hconv : pydantic_to_sqlalchemy_sample c s with e1 | t
            · exact ⟨e1, by
                simp [pydantic_list_to_sqlalchemy, hconv, Bind.bind, Except.bind]⟩
            · have hj : j < rest.length := by simpa using hi
              have herr2 : pydantic_to_sqlalchemy_sample c (rest.get ⟨j, hj⟩)
                  = Except.error e := by simpa using herr
              obtain ⟨e2, h2⟩ := ih.2 j hj e herr2
              exact ⟨e2, by
                simp [pydantic_list_to_sqlalchemy, hconv, h2, Bind.bind, Except.bind]⟩

/-- Witness for `c6_batch_convert`: a batch whose third element carries
an invalid field (`latitude = 1000`, outside the validated range) makes
the whole call fail. -/
theorem c6_batch_convert_witness :
    ∃ e2, pydantic_list_to_sqlalchemy
        ⟨["source", "timestamp"], ["key", "sample_id"], ["filename", "sample_id"], []⟩
        [PydInput.model { source := "a", timestamp := 1 },
         PydInput.model { source := "b", timestamp := 2 },
         PydInput.raw [("source", Value.str "c"), ("timestamp", Value.dt 3),
                       ("latitude", Value.int 1000)]]
      = Except.error e2 :=
  (c6_batch_convert
      ⟨["source", "timestamp"], ["key", "sample_id"], ["filename", "sample_id"], []⟩
      [PydInput.model { source := "a", timestamp := 1 },
       PydInput.model { source := "b", timestamp := 2 },
       PydInput.raw [("source", Value.str "c"), ("timestamp", Value.dt 3),
                     ("latitude", Value.int 1000)]]).2
    2 (by decide) "value out of range" rfl

/-!
## Claim C3
-/

/-- `self.field_map.get(k, k)`: the (possibly renamed) target name of a
source field. -/
def fmTarget (fm : List (String × String)) (k : String) : String :=
  (alookup fm k).getD k

theorem dinsert_append_of_not_mem {α : Type} (acc : List (String × α)) (k : String)
    (v : α) (h : ∀ kv ∈ acc, kv.1 ≠ k) : dinsert acc k v = acc ++ [(k, v)] := by
  induction acc with
  | nil => rfl
  | cons hd tl ih =>
      have hne : hd.1 ≠ k := h hd (List.mem_cons_self _ _)
      obtain ⟨k1, v1⟩ := hd
      simp only at hne
      simp [dinsert, hne, ih (fun kv hkv => h kv (List.mem_cons_of_mem _ hkv))]

theorem foldl_dinsert_targets (fm : List (String × String)) (data : Dict) :
    ∀ acc : Dict,
      (∀ kv ∈ data, ∀ kv2 ∈ acc, fmTarget fm kv.1 ≠ kv2.1) →
      (data.map (fun kv => fmTarget fm kv.1)).Nodup →
      data.foldl (fun remapped kv =>
          dinsert remapped ((alookup fm kv.1).getD kv.1) kv.2) acc
        = acc ++ data.map (fun kv => (fmTarget fm kv.1, kv.2)) := by
  induction data with
  | nil =>
      intro acc _ _
      simp
  | cons kv rest ih =>
      intro acc hdisj hnd
      simp only [List.foldl_cons]
      have hins : dinsert acc ((alookup fm kv.1).getD kv.1) kv.2
          = acc ++ [(fmTarget fm kv.1, kv.2)] := by
        apply dinsert_append_of_not_mem
        intro kv2 hkv2
        exact Ne.symm (hdisj kv (List.mem_cons_self _ _) kv2 hkv2)
      rw [hins]
      simp only [List.map_cons] at hnd
      have hnd2 := List.nodup_cons.mp hnd
      rw [ih (acc ++ [(fmTarget fm kv.1, kv.2)]) ?_ hnd2.2]
      · simp
      · intro kv3 hkv3 kv2 hkv2
        rcases List.mem_append.mp hkv2 with hkv2 | hkv2
        · exact hdisj kv3 (List.mem_cons_of_mem _ hkv3) kv2 hkv2
        · have : kv2 = (fmTarget fm kv.1, kv.2) := by simpa using hkv2
          subst this
          intro hEq
          have hEq2 : fmTarget fm kv3.1 = fmTarget fm kv.1 := hEq
          apply hnd2.1
          rw [← hEq2]
          exact List.mem_map.mpr ⟨kv3, hkv3, rfl⟩

/-- When the rename table maps the extracted field names to pairwise
distinct targets, `_apply_field_map` is plain per-entry renaming. -/
theorem apply_field_map_nodup (fm : List (String × String)) (data : Dict)
    (hnd : (data.map (fun kv => fmTarget fm kv.1)).Nodup) :
    apply_field_map fm data = data.map (fun kv => (fmTarget fm kv.1, kv.2)) := by
  unfold apply_field_map
  cases fm with
  | nil =>
      simp [fmTarget, alookup]
  | cons p fmrest =>
      rw [if_neg (by simp)]
      exact foldl_dinsert_targets (p :: fmrest) data [] (by simp) hnd

theorem alookup_filter_cols {α : Type} (d : List (String × α)) (cols : List String)
    (k : String) :
    alookup (d.filter (fun kv => decide (kv.1 ∈ cols))) k =
      if k ∈ cols then alookup d k else none := by
  have h := alookup_filter_keys d (fun x => decide (x ∈ cols)) k
  simpa using h

theorem alookup_eq_of_mem_nodup {α : Type} (d : List (String × α)) (k : String) (v : α)
    (hmem : (k, v) ∈ d) (hnd : (d.map Prod.fst).Nodup) : alookup d k = some v := by
  induction d with
  | nil => simp at hmem
  | cons hd tl ih =>
      obtain ⟨k1, v1⟩ := hd
      simp only [List.map_cons] at hnd
      have hnd2 := List.nodup_cons.mp hnd
      rcases List.mem_cons.mp hmem with heq | hmem2
      · cases heq
        simp [alookup]
      · have hk : k1 ≠ k := by
          intro h
          subst h
          exact hnd2.1 (List.mem_map.mpr ⟨(k1, v), hmem2, rfl⟩)
        simp only [alookup, if_neg hk]
        exact ih hmem2 hnd2.2

/-- C3 is false as stated: with rename table `{"external_id": "name"}`
and extracted fields `external_id = "E"`, `name = "N"`, the field
`external_id` is a key of the rename table and its target `name` is a
declared column, yet the constructed row does not hold its value under
`name` — the passthrough field `name` overwrites it in the remapping
dict, so the value `"E"` is silently lost. -/
theorem c3_counterexample :
    (dict_to_sa ["name"] [("external_id", "name")]
        [("external_id", Value.str "E"), ("name", Value.str "N")]).vals
      = [("name", Value.str "N")] :=
  rfl

/-- C3 (amended): provided the rename table sends the extracted field
names to pairwise distinct targets (no mapped target collides with
another field's (possibly renamed) name), every extracted field is
written under its (possibly renamed) name exactly when that name is a
declared column of the target row type, with its value unchanged; and
every entry of the constructed row arises that way from some extracted
field. -/
theorem c3_rename_then_drop (fm : List (String × String)) (cols : List String)
    (data : Dict) (hnd : (data.map (fun kv => fmTarget fm kv.1)).Nodup) :
    (∀ k v, (k, v) ∈ data →
       alookup (dict_to_sa cols fm data).vals (fmTarget fm k) =
         if fmTarget fm k ∈ cols then some v else none) ∧
    (∀ kv ∈ (dict_to_sa cols fm data).vals,
       kv.1 ∈ cols ∧ ∃ k1, (k1, kv.2) ∈ data ∧ kv.1 = fmTarget fm k1) := by
  have hmapped := apply_field_map_nodup fm data hnd
  constructor
  · intro k v hmem
    show alookup ((apply_field_map fm data).filter
      (fun kv => decide (kv.1 ∈ cols))) (fmTarget fm k) = _
    rw [hmapped, alookup_filter_cols]
    have hl : alookup (data.map fun kv => (fmTarget fm kv.1, kv.2))
        (fmTarget fm k) = some v := by
      apply alookup_eq_of_mem_nodup
      · exact List.mem_map.mpr ⟨(k, v), hmem, rfl⟩
      · rw [List.map_map]
        simpa [Function.comp] using hnd
    rw [hl]
  · intro kv hkv
    have hkv2 : kv ∈ (apply_field_map fm data).filter
        (fun kv => decide (kv.1 ∈ cols)) := hkv
    obtain ⟨hmem, hcol⟩ := List.mem_filter.mp hkv2
    rw [hmapped] at hmem
    obtain ⟨kv0, hkv0, rfl⟩ := List.mem_map.mp hmem
    refine ⟨by simpa using hcol, kv0.1, ?_, rfl⟩
    simpa using hkv0

/-- Witness for `c3_rename_then_drop`: rename table
`{"external_id": "ext_id"}` over two extracted fields. -/
theorem c3_rename_then_drop_witness :
    (∀ k v, (k, v) ∈ ([("external_id", Value.str "E"), ("name", Value.str "N")] : Dict) →
       alookup (dict_to_sa ["ext_id", "row_id"] [("external_id", "ext_id")]
           [("external_id", Value.str "E"), ("name", Value.str "N")]).vals
           (fmTarget [("external_id", "ext_id")] k) =
         if fmTarget [("external_id", "ext_id")] k ∈ ["ext_id", "row_id"]
         then some v else none) ∧
    (∀ kv ∈ (dict_to_sa ["ext_id", "row_id"] [("external_id", "ext_id")]
        [("external_id", Value.str "E"), ("name", Value.str "N")]).vals,
       kv.1 ∈ ["ext_id", "row_id"] ∧
       ∃ k1, (k1, kv.2) ∈ ([("external_id", Value.str "E"),
           ("name", Value.str "N")] : Dict) ∧
         kv.1 = fmTarget [("external_id", "ext_id")] k1) :=
  c3_rename_then_drop [("external_id", "ext_id")] ["ext_id", "row_id"]
    [("external_id", Value.str "E"), ("name", Value.str "N")] (by decide)

/-!
## Claims C8 and C9: lookups into the dumps
-/

@[simp]
theorem oor_none_right {α : Type} (o : Option α) : oor o none = o := by
  cases o <;> rfl

theorem answerDict_key (a : AnswerModel) :
    alookup (answerDict a) "key" = some (Value.str a.key) := by
  simp [answerDict, alookup_append, alookup_optF, oor]

theorem answerDict_question_text (a : AnswerModel) :
    alookup (answerDict a) "question_text" = some (Value.str a.question_text) := by
  simp [answerDict, alookup_append, alookup_optF, oor]

theorem answerDict_value_text (a : AnswerModel) :
    alookup (answerDict a) "value_text" = a.value_text.map Value.str := by
  simp [answerDict, alookup_append, alookup_optF]

theorem answerDict_value_numeric (a : AnswerModel) :
    alookup (answerDict a) "value_numeric" = a.value_numeric.map Value.int := by
  simp [answerDict, alookup_append, alookup_optF]

theorem answerDict_value_boolean (a : AnswerModel) :
    alookup (answerDict a) "value_boolean" = a.value_boolean.map Value.bool := by
  simp [answerDict, alookup_append, alookup_optF]

theorem answerDict_value_json (a : AnswerModel) :
    alookup (answerDict a) "value_json" = a.value_json.map Value.obj := by
  simp [answerDict, alookup_append, alookup_optF]

theorem answerDict_answer_order (a : AnswerModel) :
    alookup (answerDict a) "answer_order" = a.answer_order.map Value.int := by
  simp [answerDict, alookup_append, alookup_optF]

theorem answerDict_qc_comment_field (a : AnswerModel) :
    alookup (answerDict a) "qc_comment_field" = a.qc_comment_field.map Value.str := by
  simp [answerDict, alookup_append, alookup_optF]

theorem answerDict_qc_flag (a : AnswerModel) :
    alookup (answerDict a) "qc_flag" = a.qc_flag.map Value.int := by
  simp [answerDict, alookup_append, alookup_optF]

theorem answerDict_note (a : AnswerModel) :
    alookup (answerDict a) "note" = a.note.map Value.str := by
  simp [answerDict, alookup_append, alookup_optF]

theorem mem_optF_map {α : Type} (k : String) (f : α → Value) (o : Option α)
    (kv : String × Value) (h : kv ∈ optF k (o.map f)) : ∃ x, kv.2 = f x := by
  cases o with
  | none => simp [optF] at h
  | some x =>
      simp [optF] at h
      exact ⟨x, by rw [h]⟩

theorem no_null_append (d1 d2 : Dict) (h1 : ∀ kv ∈ d1, kv.2 ≠ Value.null)
    (h2 : ∀ kv ∈ d2, kv.2 ≠ Value.null) :
    ∀ kv ∈ d1 ++ d2, kv.2 ≠ Value.null := by
  intro kv h
  rcases List.mem_append.mp h with h | h
  · exact h1 kv h
  · exact h2 kv h

theorem no_null_optF_map {α : Type} (k : String) (f : α → Value) (o : Option α)
    (hf : ∀ x, f x ≠ Value.null) :
    ∀ kv ∈ optF k (o.map f), kv.2 ≠ Value.null := by
  intro kv h
  obtain ⟨x, hx⟩ := mem_optF_map k f o kv h
  rw [hx]
  exact hf x

theorem answerDict_no_null (a : AnswerModel) :
    ∀ kv ∈ answerDict a, kv.2 ≠ Value.null := by
  unfold answerDict
  refine no_null_append _ _ (no_null_append _ _ (no_null_append _ _ (no_null_append _ _
    (no_null_append _ _ (no_null_append _ _ (no_null_append _ _ (no_null_append _ _
      ?_ ?_) ?_) ?_) ?_) ?_) ?_) ?_) ?_
  · intro kv h
    rcases List.mem_cons.mp h with rfl | h
    · simp
    rcases List.mem_cons.mp h with rfl | h
    · simp
    · simp at h
  · exact no_null_optF_map _ _ _ (fun x => by simp)
  · exact no_null_optF_map _ _ _ (fun x => by simp)
  · exact no_null_optF_map _ _ _ (fun x => by simp)
  · exact no_null_optF_map _ _ _ (fun x => by simp)
  · exact no_null_optF_map _ _ _ (fun x => by simp)
  · exact no_null_optF_map _ _ _ (fun x => by simp)
  · exact no_null_optF_map _ _ _ (fun x => by simp)
  · exact no_null_optF_map _ _ _ (fun x => by simp)

theorem sampleScalarDict_no_null (s : SampleModel) :
    ∀ kv ∈ sampleScalarDict s, kv.2 ≠ Value.null := by
  unfold sampleScalarDict
  refine no_null_append _ _ (no_null_append _ _ (no_null_append _ _ (no_null_append _ _
    (no_null_append _ _ (no_null_append _ _ (no_null_append _ _ (no_null_append _ _
      (no_null_append _ _ (no_null_append _ _ (no_null_append _ _ (no_null_append _ _
        (no_null_append _ _ (no_null_append _ _ (no_null_append _ _ (no_null_append _ _
          (no_null_append _ _ (no_null_append _ _ ?_ ?_) ?_) ?_) ?_) ?_) ?_) ?_) ?_)
            ?_) ?_) ?_) ?_) ?_) ?_) ?_) ?_) ?_) ?_
  · intro kv h
    rcases List.mem_cons.mp h with rfl | h
    · simp
    rcases List.mem_cons.mp h with rfl | h
    · simp
    rcases List.mem_cons.mp h with rfl | h
    · simp
    · simp at h
  · exact no_null_optF_map _ _ _ (fun x => by simp)
  · exact no_null_optF_map _ _ _ (fun x => by simp)
  · exact no_null_optF_map _ _ _ (fun x => by simp)
  · exact no_null_optF_map _ _ _ (fun x => by simp)
  · exact no_null_optF_map _ _ _ (fun x => by simp)
  · intro kv h
    rcases List.mem_cons.mp h with rfl | h
    · simp
    · simp at h
  · exact no_null_optF_map _ _ _ (fun x => by simp)
  · exact no_null_optF_map _ _ _ (fun x => by simp)
  · exact no_null_optF_map _ _ _ (fun x => by simp)
  · exact no_null_optF_map _ _ _ (fun x => by simp)
  · exact no_null_optF_map _ _ _ (fun x => by simp)
  · exact no_null_optF_map _ _ _ (fun x => by simp)
  · exact no_null_optF_map _ _ _ (fun x => by simp)
  · exact no_null_optF_map _ _ _ (fun x => by simp)
  · exact no_null_optF_map _ _ _ (fun x => by simp)
  · exact no_null_optF_map _ _ _ (fun x => by simp)
  · exact no_null_optF_map _ _ _ (fun x => by simp)
  · intro kv h
    obtain ⟨hmem, hnull⟩ := List.mem_filter.mp h
    exact isNullV_false_ne_null _ (by simpa using hnull)

theorem alookup_dict_to_sa_nofm (cols : List String) (values : Dict) (k : String) :
    alookup (dict_to_sa cols [] values).vals k =
      if k ∈ cols then alookup values k else none := by
  show alookup ((apply_field_map [] values).filter
    (fun kv => decide (kv.1 ∈ cols))) k = _
  rw [show apply_field_map [] values = values from rfl, alookup_filter_cols]

/-- C8 is false as stated: an `AnswerModel` whose `question_text` and
`answer_order` fields are left at their (non-`None`) default state
(`""` and `0`) still has them extracted into the row — the code excludes
by `None`-ness (`dict(exclude_none=True)`), not by set-ness. -/
theorem c8_counterexample :
    (answer_model_to_row ⟨[], ["key", "question_text", "answer_order"], [], []⟩
        (PydInput.model { key := "k" }) none).map
      (fun r => (alookup r.vals "answer_order", alookup r.vals "question_text"))
      = Except.ok (some (Value.int 0), some (Value.str "")) :=
  rfl

/-- C8 (amended): domain-to-row flattening extracts exactly the fields
whose current value is not `None`: a `None`-valued field (absent
optional field, or one explicitly set to `None`) is omitted and never
written as an explicit null, while every non-`None` value — including
non-`None` defaults such as `question_text = ""` and `answer_order = 0`
— is included. -/
theorem c8_extracts_non_none_fields (a : AnswerModel) (s : SampleModel) :
    (∀ kv ∈ answerDict a, kv.2 ≠ Value.null) ∧
    (∀ kv ∈ sampleScalarDict s, kv.2 ≠ Value.null) ∧
    alookup (answerDict a) "key" = some (Value.str a.key) ∧
    alookup (answerDict a) "question_text" = some (Value.str a.question_text) ∧
    alookup (answerDict a) "answer_order" = a.answer_order.map Value.int ∧
    alookup (answerDict a) "value_text" = a.value_text.map Value.str ∧
    alookup (answerDict a) "value_numeric" = a.value_numeric.map Value.int ∧
    alookup (answerDict a) "value_boolean" = a.value_boolean.map Value.bool ∧
    alookup (answerDict a) "value_json" = a.value_json.map Value.obj ∧
    alookup (answerDict a) "qc_comment_field" = a.qc_comment_field.map Value.str ∧
    alookup (answerDict a) "qc_flag" = a.qc_flag.map Value.int ∧
    alookup (answerDict a) "note" = a.note.map Value.str :=
  ⟨answerDict_no_null a, sampleScalarDict_no_null s, answerDict_key a,
   answerDict_question_text a, answerDict_answer_order a, answerDict_value_text a,
   answerDict_value_numeric a, answerDict_value_boolean a, answerDict_value_json a,
   answerDict_qc_comment_field a, answerDict_qc_flag a, answerDict_note a⟩

theorem attachmentDict_storage_url (t : AttachmentModel) :
    alookup (attachmentDict t) "storage_url" = t.storage_url.map Value.url := by
  simp [attachmentDict, alookup_append, alookup_optF]

theorem attachment_model_to_row_model (c : Converters) (t : AttachmentModel) :
    attachment_model_to_row c (PydInput.model t) none =
      Except.ok (dict_to_sa c.attachmentCols c.field_map
        (match alookup (attachmentDict t) "storage_url" with
         | some v => if isNullV v then attachmentDict t
                     else dinsert (attachmentDict t) "storage_url"
                            (Value.str (pyStr v))
         | none => attachmentDict t)) :=
  rfl

theorem answer_model_to_row_model (c : Converters) (a : AnswerModel) :
    answer_model_to_row c (PydInput.model a) none =
      Except.ok (dict_to_sa c.answerCols c.field_map (answerDict a)) :=
  rfl

/-- C9 is false as stated: an answer whose structured value
(`value_json`) is a mapping is placed into the row as that mapping, not
as its canonical string form — only `storage_url` is stringified. -/
theorem c9_counterexample :
    (answer_model_to_row ⟨[], ["key", "value_json"], [], []⟩
        (PydInput.model { key := "k", value_json := some [("x", Value.int 1)] })
        none).map
      (fun r => alookup r.vals "value_json")
      = Except.ok (some (Value.obj [("x", Value.int 1)])) :=
  rfl

/-- C9 (amended): during flattening only the attachment's `storage_url`
is converted to its canonical string form before being placed in the
row; numeric and boolean values pass through unchanged, and the other
structured values (`value_json`, and likewise `storage_meta`) are
placed into the row unchanged, not stringified. -/
theorem c9_url_stringified_json_not (c : Converters) (t : AttachmentModel)
    (a : AnswerModel) (hfm : c.field_map = [])
    (hu : "storage_url" ∈ c.attachmentCols)
    (hj : "value_json" ∈ c.answerCols)
    (hn : "value_numeric" ∈ c.answerCols)
    (hb : "value_boolean" ∈ c.answerCols) :
    (∃ rt, attachment_model_to_row c (PydInput.model t) none = Except.ok rt ∧
       alookup rt.vals "storage_url" = t.storage_url.map Value.str) ∧
    (∃ ra, answer_model_to_row c (PydInput.model a) none = Except.ok ra ∧
       alookup ra.vals "value_json" = a.value_json.map Value.obj ∧
       alookup ra.vals "value_numeric" = a.value_numeric.map Value.int ∧
       alookup ra.vals "value_boolean" = a.value_boolean.map Value.bool) := by
  constructor
  · rw [attachment_model_to_row_model, attachmentDict_storage_url]
    cases hsu : t.storage_url with
    | none =>
        refine ⟨_, rfl, ?_⟩
        rw [hfm, alookup_dict_to_sa_nofm, if_pos hu]
        show alookup (attachmentDict t) "storage_url" = Option.map Value.str none
        rw [attachmentDict_storage_url, hsu]
        rfl
    | some u =>
        refine ⟨_, rfl, ?_⟩
        rw [hfm, alookup_dict_to_sa_nofm, if_pos hu]
        show alookup (if isNullV (Value.url u) then attachmentDict t
          else dinsert (attachmentDict t) "storage_url"
            (Value.str (pyStr (Value.url u)))) "storage_url" = _
        rw [if_neg (by simp [isNullV])]
        rw [alookup_dinsert_self]
        rfl
  · rw [answer_model_to_row_model]
    refine ⟨_, rfl, ?_, ?_, ?_⟩
    · rw [hfm, alookup_dict_to_sa_nofm, if_pos hj, answerDict_value_json]
    · rw [hfm, alookup_dict_to_sa_nofm, if_pos hn, answerDict_value_numeric]
    · rw [hfm, alookup_dict_to_sa_nofm, if_pos hb, answerDict_value_boolean]

/-- Witness for `c9_url_stringified_json_not` at a concrete converter,
attachment and answer. -/
theorem c9_url_stringified_json_not_witness :
    (∃ rt, attachment_model_to_row
         ⟨[], ["key", "value_json", "value_numeric", "value_boolean"],
          ["filename", "storage_url"], []⟩
         (PydInput.model { filename := "f", storage_url := some "http://h/p" }) none
       = Except.ok rt ∧
       alookup rt.vals "storage_url"
         = (some "http://h/p" : Option String).map Value.str) ∧
    (∃ ra, answer_model_to_row
         ⟨[], ["key", "value_json", "value_numeric", "value_boolean"],
          ["filename", "storage_url"], []⟩
         (PydInput.model { key := "k", value_numeric := some 3,
                           value_boolean := some true,
                           value_json := some [("x", Value.int 1)] }) none
       = Except.ok ra ∧
       alookup ra.vals "value_json"
         = (some [("x", Value.int 1)] : Option Dict).map Value.obj ∧
       alookup ra.vals "value_numeric" = (some 3 : Option Int).map Value.int ∧
       alookup ra.vals "value_boolean" = (some true : Option Bool).map Value.bool) :=
  c9_url_stringified_json_not
    ⟨[], ["key", "value_json", "value_numeric", "value_boolean"],
     ["filename", "storage_url"], []⟩
    { filename := "f", storage_url := some "http://h/p" }
    { key := "k", value_numeric := some 3, value_boolean := some true,
      value_json := some [("x", Value.int 1)] }
    rfl (by decide) (by decide) (by decide) (by decide)

/-!
## Claim C1: the sample round trip

Lookup lemmas into `sampleScalarDict` (for a model with no extra
attributes), evaluation lemmas for the parse combinators on dump-shaped
values, and success of `parse_obj` on the dump of a validated model.
-/

theorem sdict_source (s : SampleModel) (hx : s.extra = []) :
    alookup (sampleScalarDict s) "source" = some (Value.str s.source) := by
  simp [sampleScalarDict, alookup_append, alookup_optF, hx]

theorem sdict_timestamp (s : SampleModel) (hx : s.extra = []) :
    alookup (sampleScalarDict s) "timestamp" = some (Value.dt s.timestamp) := by
  simp [sampleScalarDict, alookup_append, alookup_optF, hx]

theorem sdict_kind (s : SampleModel) (hx : s.extra = []) :
    alookup (sampleScalarDict s) "kind" = some (Value.str s.kind) := by
  simp [sampleScalarDict, alookup_append, alookup_optF, hx]

theorem sdict_external_id (s : SampleModel) (hx : s.extra = []) :
    alookup (sampleScalarDict s) "external_id" = s.external_id.map Value.str := by
  simp [sampleScalarDict, alookup_append, alookup_optF, hx]

theorem sdict_plugin_id (s : SampleModel) (hx : s.extra = []) :
    alookup (sampleScalarDict s) "plugin_id" = s.plugin_id.map Value.str := by
  simp [sampleScalarDict, alookup_append, alookup_optF, hx]

theorem sdict_plugin_version (s : SampleModel) (hx : s.extra = []) :
    alookup (sampleScalarDict s) "plugin_version" = s.plugin_version.map Value.str := by
  simp [sampleScalarDict, alookup_append, alookup_optF, hx]

theorem sdict_name (s : SampleModel) (hx : s.extra = []) :
    alookup (sampleScalarDict s) "name" = s.name.map Value.str := by
  simp [sampleScalarDict, alookup_append, alookup_optF, hx]

theorem sdict_description (s : SampleModel) (hx : s.extra = []) :
    alookup (sampleScalarDict s) "description" = s.description.map Value.str := by
  simp [sampleScalarDict, alookup_append, alookup_optF, hx]

theorem sdict_sample_date (s : SampleModel) (hx : s.extra = []) :
    alookup (sampleScalarDict s) "sample_date" = some (Value.dt s.sample_date) := by
  simp [sampleScalarDict, alookup_append, alookup_optF, hx]

theorem sdict_latitude (s : SampleModel) (hx : s.extra = []) :
    alookup (sampleScalarDict s) "latitude" = s.latitude.map Value.int := by
  simp [sampleScalarDict, alookup_append, alookup_optF, hx]

theorem sdict_longitude (s : SampleModel) (hx : s.extra = []) :
    alookup (sampleScalarDict s) "longitude" = s.longitude.map Value.int := by
  simp [sampleScalarDict, alookup_append, alookup_optF, hx]

theorem sdict_street_address (s : SampleModel) (hx : s.extra = []) :
    alookup (sampleScalarDict s) "street_address" = s.street_address.map Value.str := by
  simp [sampleScalarDict, alookup_append, alookup_optF, hx]

theorem sdict_city (s : SampleModel) (hx : s.extra = []) :
    alookup (sampleScalarDict s) "city" = s.city.map Value.str := by
  simp [sampleScalarDict, alookup_append, alookup_optF, hx]

theorem sdict_postal_code (s : SampleModel) (hx : s.extra = []) :
    alookup (sampleScalarDict s) "postal_code" = s.postal_code.map Value.str := by
  simp [sampleScalarDict, alookup_append, alookup_optF, hx]

theorem sdict_country_code (s : SampleModel) (hx : s.extra = []) :
    alookup (sampleScalarDict s) "country_code" = s.country_code.map Value.str := by
  simp [sampleScalarDict, alookup_append, alookup_optF, hx]

theorem sdict_organization_id (s : SampleModel) (hx : s.extra = []) :
    alookup (sampleScalarDict s) "organization_id"
      = s.organization_id.map Value.int := by
  simp [sampleScalarDict, alookup_append, alookup_optF, hx]

theorem sdict_collector_id (s : SampleModel) (hx : s.extra = []) :
    alookup (sampleScalarDict s) "collector_id" = s.collector_id.map Value.str := by
  simp [sampleScalarDict, alookup_append, alookup_optF, hx]

theorem sdict_collector_name (s : SampleModel) (hx : s.extra = []) :
    alookup (sampleScalarDict s) "collector_name"
      = s.collector_name.map Value.str := by
  simp [sampleScalarDict, alookup_append, alookup_optF, hx]

theorem sdict_attributes (s : SampleModel) (hx : s.extra = []) :
    alookup (sampleScalarDict s) "attributes" = s.attributes.map Value.obj := by
  simp [sampleScalarDict, alookup_append, alookup_optF, hx]

theorem sdict_raw_payload (s : SampleModel) (hx : s.extra = []) :
    alookup (sampleScalarDict s) "raw_payload" = s.raw_payload.map Value.obj := by
  simp [sampleScalarDict, alookup_append, alookup_optF, hx]

theorem attachmentDict_filename (t : AttachmentModel) :
    alookup (attachmentDict t) "filename" = some (Value.str t.filename) := by
  simp [attachmentDict, alookup_append, alookup_optF]

theorem attachmentDict_mime_type (t : AttachmentModel) :
    alookup (attachmentDict t) "mime_type" = t.mime_type.map Value.str := by
  simp [attachmentDict, alookup_append, alookup_optF]

theorem attachmentDict_storage_type (t : AttachmentModel) :
    alookup (attachmentDict t) "storage_type" = t.storage_type.map Value.str := by
  simp [attachmentDict, alookup_append, alookup_optF]

theorem attachmentDict_storage_path (t : AttachmentModel) :
    alookup (attachmentDict t) "storage_path" = t.storage_path.map Value.str := by
  simp [attachmentDict, alookup_append, alookup_optF]

theorem attachmentDict_storage_bucket (t : AttachmentModel) :
    alookup (attachmentDict t) "storage_bucket" = t.storage_bucket.map Value.str := by
  simp [attachmentDict, alookup_append, alookup_optF]

theorem attachmentDict_storage_object_key (t : AttachmentModel) :
    alookup (attachmentDict t) "storage_object_key"
      = t.storage_object_key.map Value.str := by
  simp [attachmentDict, alookup_append, alookup_optF]

theorem attachmentDict_storage_meta (t : AttachmentModel) :
    alookup (attachmentDict t) "storage_meta" = t.storage_meta.map Value.obj := by
  simp [attachmentDict, alookup_append, alookup_optF]

theorem attachmentDict_caption (t : AttachmentModel) :
    alookup (attachmentDict t) "caption" = t.caption.map Value.str := by
  simp [attachmentDict, alookup_append, alookup_optF]

theorem attachmentDict_file_size_bytes (t : AttachmentModel) :
    alookup (attachmentDict t) "file_size_bytes"
      = t.file_size_bytes.map Value.int := by
  simp [attachmentDict, alookup_append, alookup_optF]

theorem attachmentDict_uploaded_by (t : AttachmentModel) :
    alookup (attachmentDict t) "uploaded_by" = t.uploaded_by.map Value.str := by
  simp [attachmentDict, alookup_append, alookup_optF]

/-!
Evaluation of the parse combinators on the shapes the dumps produce.
-/

theorem getOptStr_enc (v : Option String) :
    getOptStr (v.map Value.str) = Except.ok v := by
  cases v <;> rfl

theorem getOptInt_enc (v : Option Int) :
    getOptInt (v.map Value.int) = Except.ok v := by
  cases v <;> rfl

theorem getOptBool_enc (v : Option Bool) :
    getOptBool (v.map Value.bool) = Except.ok v := by
  cases v <;> rfl

theorem getOptDict_enc (v : Option Dict) :
    getOptDict (v.map Value.obj) = Except.ok v := by
  cases v <;> rfl

theorem getOptUrl_enc (v : Option String) :
    getOptUrl (v.map Value.url) = Except.ok v := by
  cases v <;> rfl

theorem getOptIntDefZero_enc (v : Option Int) :
    getOptIntDefZero (v.map Value.int) = Except.ok (some (v.getD 0)) := by
  cases v <;> rfl

theorem getStrDef_str (dflt x : String) :
    getStrDef dflt (some (Value.str x)) = Except.ok x :=
  rfl

theorem getConStr_trimmed (maxLen : Nat) (x : String) (ht : strTrim x = x)
    (hl : x.length ≤ maxLen) :
    getConStr maxLen (some (Value.str x)) = Except.ok x := by
  simp [getConStr, ht, hl]

theorem parseAnswer_answerDict_ok (a : AnswerModel) (hv : validAnswerB a = true) :
    ∃ m, parseAnswer (answerDict a) = Except.ok m := by
  obtain ⟨ht, hl⟩ : strTrim a.key = a.key ∧ a.key.length ≤ 150 := by
    simpa [validAnswerB] using hv
  apply Exists.intro
  unfold parseAnswer
  rw [answerDict_key, answerDict_question_text, answerDict_value_text,
      answerDict_value_numeric, answerDict_value_boolean, answerDict_value_json,
      answerDict_answer_order, answerDict_qc_comment_field, answerDict_qc_flag,
      answerDict_note, getConStr_trimmed 150 a.key ht hl]
  simp only [getStrDef_str, getOptStr_enc, getOptInt_enc, getOptBool_enc,
             getOptDict_enc, getOptIntDefZero_enc, Bind.bind, Except.bind]
  rfl

theorem parseAttachment_attachmentDict_ok (t : AttachmentModel)
    (hv : validAttachmentB t = true) :
    ∃ m, parseAttachment (attachmentDict t) = Except.ok m := by
  obtain ⟨ht, hl⟩ : strTrim t.filename = t.filename ∧ t.filename.length ≤ 255 := by
    simpa [validAttachmentB] using hv
  apply Exists.intro
  unfold parseAttachment
  rw [attachmentDict_filename, attachmentDict_mime_type,
      attachmentDict_storage_type, attachmentDict_storage_path,
      attachmentDict_storage_bucket, attachmentDict_storage_object_key,
      attachmentDict_storage_url, attachmentDict_storage_meta,
      attachmentDict_caption, attachmentDict_file_size_bytes,
      attachmentDict_uploaded_by, getConStr_trimmed 255 t.filename ht hl]
  simp only [getOptStr_enc, getOptInt_enc, getOptDict_enc, getOptUrl_enc,
             Bind.bind, Except.bind]
  rfl

theorem answer_model_to_row_raw (c : Converters) (d : Dict) :
    answer_model_to_row c (PydInput.raw d) none =
      (parseAnswer d).bind (fun m =>
        Except.ok (dict_to_sa c.answerCols c.field_map (answerDict m))) :=
  rfl

theorem answer_row_raw_ok (c : Converters) (a : AnswerModel)
    (hv : validAnswerB a = true) :
    ∃ r, answer_model_to_row c (PydInput.raw (answerDict a)) none = Except.ok r := by
  obtain ⟨m, hm⟩ := parseAnswer_answerDict_ok a hv
  apply Exists.intro
  rw [answer_model_to_row_raw, hm]
  rfl

theorem attachment_model_to_row_raw (c : Converters) (d : Dict) :
    attachment_model_to_row c (PydInput.raw d) none =
      (parseAttachment d).bind (fun m =>
        Except.ok (dict_to_sa c.attachmentCols c.field_map
          (match alookup (attachmentDict m) "storage_url" with
           | some v => if isNullV v then attachmentDict m
                       else dinsert (attachmentDict m) "storage_url"
                              (Value.str (pyStr v))
           | none => attachmentDict m))) :=
  rfl

theorem attachment_row_raw_ok (c : Converters) (t : AttachmentModel)
    (hv : validAttachmentB t = true) :
    ∃ r, attachment_model_to_row c (PydInput.raw (attachmentDict t)) none
      = Except.ok r := by
  obtain ⟨m, hm⟩ := parseAttachment_attachmentDict_ok t hv
  apply Exists.intro
  rw [attachment_model_to_row_raw, hm]
  rfl

theorem exceptMap_ok_of_forall {α β : Type} (f : α → Except String β) (l : List α)
    (h : ∀ a ∈ l, ∃ b, f a = Except.ok b) :
    ∃ l2, exceptMap f l = Except.ok l2 := by
  induction l with
  | nil => exact ⟨[], rfl⟩
  | cons a rest ih =>
      obtain ⟨b, hb⟩ := h a (List.mem_cons_self _ _)
      obtain ⟨l2, hl2⟩ := ih (fun x hx => h x (List.mem_cons_of_mem _ hx))
      refine ⟨b :: l2, ?_⟩
      simp [exceptMap, hb, hl2, Bind.bind, Except.bind, pure, Except.pure]

/-- Success of the forward conversion on a validated model. -/
theorem pyd_to_sa_model_ok (c : Converters) (s : SampleModel)
    (hv : validSampleB s = true) :
    ∃ ars ats, pydantic_to_sqlalchemy_sample c (PydInput.model s)
      = Except.ok (dict_to_sa c.sampleCols c.field_map (sampleScalarDict s),
                   ars, ats) := by
  have hvs := hv
  simp only [validSampleB, Bool.and_eq_true, List.all_eq_true] at hvs
  obtain ⟨⟨⟨⟨⟨_, _⟩, _⟩, _⟩, hva⟩, hvt⟩ := hvs
  obtain ⟨ars, hars⟩ := exceptMap_ok_of_forall
    (fun a => answer_model_to_row c (PydInput.raw (answerDict a)) none) s.answers
    (fun a ha => answer_row_raw_ok c a (hva a ha))
  obtain ⟨ats, hats⟩ := exceptMap_ok_of_forall
    (fun t => attachment_model_to_row c (PydInput.raw (attachmentDict t)) none)
    s.attachments
    (fun t ht => attachment_row_raw_ok c t (hvt t ht))
  refine ⟨ars, ats, ?_⟩
  unfold pydantic_to_sqlalchemy_sample
  simp only [Bind.bind, Except.bind, hars, hats, pure, Except.pure]

/-!
Parse combinators on the values read back from the row: the column value
when the field name is a declared column, absent otherwise.
-/

theorem reqStr_str (x : String) :
    reqStr (some ((some (Value.str x)).getD Value.null)) = Except.ok x :=
  rfl

theorem reqDt_dt (x : Int) :
    reqDt (some ((some (Value.dt x)).getD Value.null)) = Except.ok x :=
  rfl

theorem getKind_cond (c : Prop) [Decidable c] :
    getKind (if c then some ((some (Value.str "samplerecord")).getD Value.null)
             else none)
      = Except.ok "samplerecord" := by
  by_cases h : c <;> simp [h, getKind]

theorem getOptStr_cond (c : Prop) [Decidable c] (v : Option String) :
    getOptStr (if c then some ((v.map Value.str).getD Value.null) else none)
      = Except.ok (if c then v else none) := by
  by_cases h : c <;> cases v <;> simp [h, getOptStr]

theorem getOptInt_cond (c : Prop) [Decidable c] (v : Option Int) :
    getOptInt (if c then some ((v.map Value.int).getD Value.null) else none)
      = Except.ok (if c then v else none) := by
  by_cases h : c <;> cases v <;> simp [h, getOptInt]

theorem getOptDict_cond (c : Prop) [Decidable c] (v : Option Dict) :
    getOptDict (if c then some ((v.map Value.obj).getD Value.null) else none)
      = Except.ok (if c then v else none) := by
  by_cases h : c <;> cases v <;> simp [h, getOptDict]

theorem getOptDictDefEmpty_cond (c : Prop) [Decidable c] (v : Option Dict) :
    getOptDictDefEmpty (if c then some ((v.map Value.obj).getD Value.null) else none)
      = Except.ok (if c then v else some []) := by
  by_cases h : c <;> cases v <;> simp [h, getOptDictDefEmpty]

theorem getDtDef_cond (c : Prop) [Decidable c] (dflt t : Int) :
    getDtDef dflt (if c then some ((some (Value.dt t)).getD Value.null) else none)
      = Except.ok (if c then t else dflt) := by
  by_cases h : c <;> simp [h, getDtDef]

theorem getOptRange_cond (c : Prop) [Decidable c] (lo hi : Int) (v : Option Int)
    (hv : ∀ n ∈ v, lo ≤ n ∧ n ≤ hi) :
    getOptRange lo hi (if c then some ((v.map Value.int).getD Value.null) else none)
      = Except.ok (if c then v else none) := by
  by_cases h : c
  · cases v with
    | none => simp [h, getOptRange]
    | some n => simp [h, getOptRange, hv n (by simp)]
  · simp [h, getOptRange]

theorem getCountry_cond (c : Prop) [Decidable c] (v : Option String)
    (hv : ∀ cc ∈ v, cc.length = 2) :
    getCountry (if c then some ((v.map Value.str).getD Value.null) else none)
      = Except.ok (if c then v else none) := by
  by_cases h : c
  · cases v with
    | none => simp [h, getCountry]
    | some cc => simp [h, getCountry, hv cc (by simp)]
  · simp [h, getCountry]

/-- What `sqlalchemy_sample_to_pydantic` reads back for each field name
from the row that `pydantic_to_sqlalchemy_sample` built (empty rename
table). -/
theorem c1_data_lookup (cols : List String) (s : SampleModel) (f : String) :
    alookup ((dict_to_sa cols [] (sampleScalarDict s)).cols.map
        (fun col => (col, getattrV (dict_to_sa cols [] (sampleScalarDict s)) col))) f
      = if f ∈ cols then some ((alookup (sampleScalarDict s) f).getD Value.null)
        else none := by
  show alookup (cols.map
    (fun col => (col, getattrV (dict_to_sa cols [] (sampleScalarDict s)) col))) f = _
  rw [alookup_map_keys]
  by_cases h : f ∈ cols
  · rw [if_pos h, if_pos h]
    unfold getattrV
    rw [alookup_dict_to_sa_nofm, if_pos h]
  · rw [if_neg h, if_neg h]

/-- C1 (amended): for a validated sample (without extra attributes) and
an empty rename table, converting to rows and back
(`sqlalchemy_sample_to_pydantic` of the sample row produced by
`pydantic_to_sqlalchemy_sample`) succeeds and reproduces every domain
field that is a declared column of the storage schema, while every
domain field absent from the storage schema comes back at its declared
default (dropped); the nested answers and attachments are always
dropped from the sample row.  With a non-empty rename table the
round trip does NOT reproduce renamed fields (see the
counterexample): the reverse direction never applies the inverse
rename, so a renamed field returns as an extra attribute under the
storage name. -/
theorem c1_roundtrip_same_name (cols acols tcols : List String) (s : SampleModel)
    (hv : validSampleB s = true) (hx : s.extra = [])
    (hsrc : "source" ∈ cols) (hts : "timestamp" ∈ cols)
    (hans : "answers" ∉ cols) (hatt : "attachments" ∉ cols) :
    ∃ row answer_rows attachment_rows m,
      pydantic_to_sqlalchemy_sample ⟨cols, acols, tcols, []⟩ (PydInput.model s)
        = Except.ok (row, answer_rows, attachment_rows) ∧
      sqlalchemy_sample_to_pydantic ⟨cols, acols, tcols, []⟩ row = Except.ok m ∧
      m.source = s.source ∧
      m.timestamp = s.timestamp ∧
      m.kind = s.kind ∧
      m.external_id = (if "external_id" ∈ cols then s.external_id else none) ∧
      m.plugin_id = (if "plugin_id" ∈ cols then s.plugin_id else none) ∧
      m.plugin_version = (if "plugin_version" ∈ cols then s.plugin_version
                          else none) ∧
      m.name = (if "name" ∈ cols then s.name else none) ∧
      m.description = (if "description" ∈ cols then s.description else none) ∧
      m.sample_date = (if "sample_date" ∈ cols then s.sample_date
                       else defaultSampleDate) ∧
      m.latitude = (if "latitude" ∈ cols then s.latitude else none) ∧
      m.longitude = (if "longitude" ∈ cols then s.longitude else none) ∧
      m.street_address = (if "street_address" ∈ cols then s.street_address
                          else none) ∧
      m.city = (if "city" ∈ cols then s.city else none) ∧
      m.postal_code = (if "postal_code" ∈ cols then s.postal_code else none) ∧
      m.country_code = (if "country_code" ∈ cols then s.country_code else none) ∧
      m.organization_id = (if "organization_id" ∈ cols then s.organization_id
                           else none) ∧
      m.collector_id = (if "collector_id" ∈ cols then s.collector_id else none) ∧
      m.collector_name = (if "collector_name" ∈ cols then s.collector_name
                          else none) ∧
      m.attributes = (if "attributes" ∈ cols then s.attributes else some []) ∧
      m.raw_payload = (if "raw_payload" ∈ cols then s.raw_payload else none) ∧
      m.answers = [] ∧
      m.attachments = [] := by
  have hvs := hv
  simp only [validSampleB, Bool.and_eq_true, List.all_eq_true] at hvs
  obtain ⟨⟨⟨⟨⟨hk, hlat⟩, hlong⟩, hcc⟩, _⟩, _⟩ := hvs
  have hk2 : s.kind = "samplerecord" := by simpa using hk
  have hlat2 : ∀ n ∈ s.latitude, (-90 : Int) ≤ n ∧ n ≤ 90 := by
    intro n hn
    cases hs : s.latitude with
    | none => rw [hs] at hn; simp at hn
    | some x =>
        rw [hs] at hn hlat
        simp at hn
        subst hn
        simpa [optInRangeB] using hlat
  have hlong2 : ∀ n ∈ s.longitude, (-180 : Int) ≤ n ∧ n ≤ 180 := by
    intro n hn
    cases hs : s.longitude with
    | none => rw [hs] at hn; simp at hn
    | some x =>
        rw [hs] at hn hlong
        simp at hn
        subst hn
        simpa [optInRangeB] using hlong
  have hcc2 : ∀ cc ∈ s.country_code, cc.length = 2 := by
    intro cc hn
    cases hs : s.country_code with
    | none => rw [hs] at hn; simp at hn
    | some x =>
        rw [hs] at hn hcc
        simp at hn
        subst hn
        simpa [optLen2B] using hcc
  obtain ⟨ars, ats, hfwd⟩ := pyd_to_sa_model_ok ⟨cols, acols, tcols, []⟩ s hv
  have hback : ∃ m,
      sqlalchemy_sample_to_pydantic ⟨cols, acols, tcols, []⟩
          (dict_to_sa cols [] (sampleScalarDict s)) = Except.ok m ∧
      m.source = s.source ∧
      m.timestamp = s.timestamp ∧
      m.kind = s.kind ∧
      m.external_id = (if "external_id" ∈ cols then s.external_id else none) ∧
      m.plugin_id = (if "plugin_id" ∈ cols then s.plugin_id else none) ∧
      m.plugin_version = (if "plugin_version" ∈ cols then s.plugin_version
                          else none) ∧
      m.name = (if "name" ∈ cols then s.name else none) ∧
      m.description = (if "description" ∈ cols then s.description else none) ∧
      m.sample_date = (if "sample_date" ∈ cols then s.sample_date
                       else defaultSampleDate) ∧
      m.latitude = (if "latitude" ∈ cols then s.latitude else none) ∧
      m.longitude = (if "longitude" ∈ cols then s.longitude else none) ∧
      m.street_address = (if "street_address" ∈ cols then s.street_address
                          else none) ∧
      m.city = (if "city" ∈ cols then s.city else none) ∧
      m.postal_code = (if "postal_code" ∈ cols then s.postal_code else none) ∧
      m.country_code = (if "country_code" ∈ cols then s.country_code else none) ∧
      m.organization_id = (if "organization_id" ∈ cols then s.organization_id
                           else none) ∧
      m.collector_id = (if "collector_id" ∈ cols then s.collector_id else none) ∧
      m.collector_name = (if "collector_name" ∈ cols then s.collector_name
                          else none) ∧
      m.attributes = (if "attributes" ∈ cols then s.attributes else some []) ∧
      m.raw_payload = (if "raw_payload" ∈ cols then s.raw_payload else none) ∧
      m.answers = [] ∧
      m.attachments = [] := by
    apply Exists.intro
    constructor
    · unfold sqlalchemy_sample_to_pydantic parseSample
      rw [c1_data_lookup cols s "source", c1_data_lookup cols s "timestamp",
          c1_data_lookup cols s "kind", c1_data_lookup cols s "external_id",
          c1_data_lookup cols s "plugin_id", c1_data_lookup cols s "plugin_version",
          c1_data_lookup cols s "name", c1_data_lookup cols s "description",
          c1_data_lookup cols s "sample_date", c1_data_lookup cols s "latitude",
          c1_data_lookup cols s "longitude", c1_data_lookup cols s "street_address",
          c1_data_lookup cols s "city", c1_data_lookup cols s "postal_code",
          c1_data_lookup cols s "country_code",
          c1_data_lookup cols s "organization_id",
          c1_data_lookup cols s "collector_id",
          c1_data_lookup cols s "collector_name", c1_data_lookup cols s "answers",
          c1_data_lookup cols s "attachments", c1_data_lookup cols s "attributes",
          c1_data_lookup cols s "raw_payload"]
      rw [sdict_source s hx, sdict_timestamp s hx, sdict_kind s hx,
          sdict_external_id s hx, sdict_plugin_id s hx, sdict_plugin_version s hx,
          sdict_name s hx, sdict_description s hx, sdict_sample_date s hx,
          sdict_latitude s hx, sdict_longitude s hx, sdict_street_address s hx,
          sdict_city s hx, sdict_postal_code s hx, sdict_country_code s hx,
          sdict_organization_id s hx, sdict_collector_id s hx,
          sdict_collector_name s hx, sdict_attributes s hx, sdict_raw_payload s hx]
      rw [hk2, if_pos hsrc, if_pos hts, if_neg hans, if_neg hatt]
      rw [reqStr_str, reqDt_dt, getKind_cond, getDtDef_cond,
          getOptRange_cond ("latitude" ∈ cols) (-90) 90 s.latitude hlat2,
          getOptRange_cond ("longitude" ∈ cols) (-180) 180 s.longitude hlong2,
          getCountry_cond ("country_code" ∈ cols) s.country_code hcc2]
      simp only [getOptStr_cond, getOptInt_cond, getOptDict_cond,
                 getOptDictDefEmpty_cond, getAnswersField, getAttachmentsField,
                 Bind.bind, Except.bind]
      rfl
    · exact ⟨rfl, rfl, hk2.symm, rfl, rfl, rfl, rfl, rfl, rfl, rfl, rfl, rfl,
             rfl, rfl, rfl, rfl, rfl, rfl, rfl, rfl, rfl, rfl⟩
  obtain ⟨m, hm, hfields⟩ := hback
  exact ⟨_, ars, ats, m, hfwd, hm, hfields⟩

/-- C1 is false for a non-empty rename table: with
`field_map = {"external_id": "ext_id"}` and storage columns
`source, timestamp, ext_id`, the validated sample with
`external_id = "X"` stores `"X"` under `ext_id`, but the reverse
conversion reads columns by storage name without applying the inverse
rename, so the reconstructed model has `external_id = none` — the field
comes back only as the extra attribute `ext_id`.  A field present in
both schemas (via the rename) is not reproduced. -/
theorem c1_counterexample :
    (pydantic_to_sqlalchemy_sample
        ⟨["source", "timestamp", "ext_id"], [], [], [("external_id", "ext_id")]⟩
        (PydInput.model { source := "s", timestamp := 1,
                          external_id := some "X" })).map
      (fun t => alookup t.1.vals "ext_id") = Except.ok (some (Value.str "X")) ∧
    ((pydantic_to_sqlalchemy_sample
        ⟨["source", "timestamp", "ext_id"], [], [], [("external_id", "ext_id")]⟩
        (PydInput.model { source := "s", timestamp := 1,
                          external_id := some "X" })).bind
      (fun t => sqlalchemy_sample_to_pydantic
        ⟨["source", "timestamp", "ext_id"], [], [], [("external_id", "ext_id")]⟩
        t.1)).map
      (fun m => (m.external_id, alookup m.extra "ext_id"))
      = Except.ok (none, some (Value.str "X")) :=
  ⟨rfl, rfl⟩

/-- Witness for `c1_roundtrip_same_name` at a concrete schema and
sample: `name` and `latitude` are declared columns and round-trip;
`external_id` is not a column and is dropped to its default. -/
theorem c1_roundtrip_same_name_witness :
    ∃ row answer_rows attachment_rows m,
      pydantic_to_sqlalchemy_sample
          ⟨["source", "timestamp", "name", "latitude"], ["key", "sample_id"],
           ["filename", "sample_id"], []⟩
          (PydInput.model { source := "api", timestamp := 100, name := some "S",
                            external_id := some "E", latitude := some 40,
                            answers := [({ key := "k1" } : AnswerModel)] })
        = Except.ok (row, answer_rows, attachment_rows) ∧
      sqlalchemy_sample_to_pydantic
          ⟨["source", "timestamp", "name", "latitude"], ["key", "sample_id"],
           ["filename", "sample_id"], []⟩ row = Except.ok m ∧
      m.source = "api" ∧
      m.timestamp = 100 ∧
      m.kind = "samplerecord" ∧
      m.external_id = (if "external_id" ∈ ["source", "timestamp", "name", "latitude"]
                       then some "E" else none) ∧
      m.plugin_id = (if "plugin_id" ∈ ["source", "timestamp", "name", "latitude"]
                     then none else none) ∧
      m.plugin_version = (if "plugin_version" ∈
                            ["source", "timestamp", "name", "latitude"]
                          then none else none) ∧
      m.name = (if "name" ∈ ["source", "timestamp", "name", "latitude"]
                then some "S" else none) ∧
      m.description = (if "description" ∈ ["source", "timestamp", "name", "latitude"]
                       then none else none) ∧
      m.sample_date = (if "sample_date" ∈ ["source", "timestamp", "name", "latitude"]
                       then defaultSampleDate else defaultSampleDate) ∧
      m.latitude = (if "latitude" ∈ ["source", "timestamp", "name", "latitude"]
                    then some 40 else none) ∧
      m.longitude = (if "longitude" ∈ ["source", "timestamp", "name", "latitude"]
                     then none else none) ∧
      m.street_address = (if "street_address" ∈
                            ["source", "timestamp", "name", "latitude"]
                          then none else none) ∧
      m.city = (if "city" ∈ ["source", "timestamp", "name", "latitude"]
                then none else none) ∧
      m.postal_code = (if "postal_code" ∈ ["source", "timestamp", "name", "latitude"]
                       then none else none) ∧
      m.country_code = (if "country_code" ∈
                          ["source", "timestamp", "name", "latitude"]
                        then none else none) ∧
      m.organization_id = (if "organization_id" ∈
                             ["source", "timestamp", "name", "latitude"]
                           then none else none) ∧
      m.collector_id = (if "collector_id" ∈
                          ["source", "timestamp", "name", "latitude"]
                        then none else none) ∧
      m.collector_name = (if "collector_name" ∈
                            ["source", "timestamp", "name", "latitude"]
                          then none else none) ∧
      m.attributes = (if "attributes" ∈ ["source", "timestamp", "name", "latitude"]
                      then some [] else some []) ∧
      m.raw_payload = (if "raw_payload" ∈ ["source", "timestamp", "name", "latitude"]
                       then none else none) ∧
      m.answers = [] ∧
      m.attachments = [] :=
  c1_roundtrip_same_name ["source", "timestamp", "name", "latitude"]
    ["key", "sample_id"] ["filename", "sample_id"]
    { source := "api", timestamp := 100, name := some "S",
      external_id := some "E", latitude := some 40,
      answers := [({ key := "k1" } : AnswerModel)] }
    (by decide) rfl (by decide) (by decide) (by decide) (by decide)
